import Mathlib

/-!
ArangoDBStarter: agency health check, process supervision, port assignment.

A shallow embedding of the parts of the starter that the specification's
testable properties talk about:

* `service/arangod/agency_health.go`: `AreAgentsHealthy`, `IsSameEndpoint`;
* `service/arangodb.go`: the port constants, `makeBaseArgs`, `startArangod`,
  `runArangod` and `needsAgent`.

Go's standard library is not part of the repository.  The one library call
whose result decides a branch of `IsSameEndpoint`, `url.Parse` followed by
`URL.Hostname`, is therefore an argument of the embedding (`HostnameOf`), and
so is `filepath.Join`.
-/

namespace ArangoDBStarter

/-! ## service/arangod/agency_health.go -/

/-- The result of `url.Parse(s)` followed by `.Hostname()`: `none` when
`url.Parse` returns an error, `some h` when it succeeds and `Hostname()` is
`h`.  Go's parser is deterministic, hence a function. -/
abbrev HostnameOf := String → Option String

/-- The only part of a `driver.Connection` the health check reads:
`c.Endpoints()`. -/
structure Connection where
  Endpoints : List String
  deriving DecidableEq, Repr

/-- Go's `strings.Join(elems, ",")`. -/
def joinEndpoints (elems : List String) : String :=
  String.intercalate "," elems

/-- The helper structure `agentStatus` (agency_health.go:47-51). -/
structure agentStatus where
  IsLeader : Bool
  LeaderEndpoint : String
  IsResponding : Bool
  deriving DecidableEq, Repr

/-- The zero value every slot of `statuses` has after
`make([]agentStatus, len(clients))`. -/
def agentStatus.zero : agentStatus :=
  { IsLeader := false, LeaderEndpoint := "", IsResponding := false }

/-- What one member's probe goroutine observes (agency_health.go:67-86).
* `newAgencyFailed`: `agency.NewAgency(c)` returned an error;
* `validRead`: `ReadKey` returned `nil` or a key-not-found error;
* `redirect hasResp location`: `ReadKey` failed with an ArangoError of code
  307; `hasResp` is `resp != nil` and `location` is
  `resp.Header("Location")`;
* `other`: any other failure (time-out, connection failure, other status). -/
inductive ProbeReply where
  | newAgencyFailed
  | validRead
  | redirect (hasResp : Bool) (location : String)
  | other
  deriving DecidableEq, Repr

/-- The body of the probe goroutine: the value of `statuses[i]` once the
goroutine of client `c` is done (agency_health.go:62-89). -/
def probe (c : Connection) : ProbeReply → agentStatus
  | .newAgencyFailed => agentStatus.zero
  | .validRead =>
      { IsLeader := true, LeaderEndpoint := joinEndpoints c.Endpoints, IsResponding := true }
  | .redirect hasResp location =>
      if hasResp then
        { IsLeader := false, LeaderEndpoint := location, IsResponding := true }
      else
        { agentStatus.zero with IsResponding := false }
  | .other => { agentStatus.zero with IsResponding := false }

/-- `IsSameEndpoint` (agency_health.go:118-131). -/
def IsSameEndpoint (hostnameOf : HostnameOf) (a b : String) : Bool :=
  if a = b then true
  else
    match hostnameOf a with
    | none => false
    | some ha =>
      match hostnameOf b with
      | none => false
      | some hb => ha == hb

/-- The three errors of the evaluation step, as the text `Error()` returns
(`maskAny` only attaches a stack). -/
def errNotResponding (c : Connection) : String :=
  "Agent " ++ joinEndpoints c.Endpoints ++ " is not responding"

/-- The text of the leader-disagreement error (agency_health.go:106). -/
def errLeaderMismatch : String :=
  "Not all agents report the same leader endpoint"

/-- The text of the leader-count error (agency_health.go:111), `%d` of an
`int` that is never negative. -/
def errLeaderCount (noLeaders : Nat) : String :=
  "Unexpected number of agency leaders: " ++ toString noLeaders

/-- The loop `for i, status := range statuses` and the check after it
(agency_health.go:94-113).  The list holds `(clients[i], statuses[i])` from
index `i` on, `prev` is `statuses[i-1]` (`none` when `i = 0`), `noLeaders`
is the counter.  The result is `none` for a `nil` error and `some msg` for an
error with text `msg`. -/
def checkLoop (hostnameOf : HostnameOf) :
    List (Connection × agentStatus) → Option agentStatus → Nat → Option String
  | [], _, noLeaders =>
      if noLeaders ≠ 1 then some (errLeaderCount noLeaders) else none
  | (c, status) :: rest, prev, noLeaders =>
      if !status.IsResponding then some (errNotResponding c)
      else
        let noLeaders := if status.IsLeader then noLeaders + 1 else noLeaders
        match prev with
        | none => checkLoop hostnameOf rest (some status) noLeaders
        | some p =>
            if !IsSameEndpoint hostnameOf p.LeaderEndpoint status.LeaderEndpoint then
              some errLeaderMismatch
            else checkLoop hostnameOf rest (some status) noLeaders

/-- The evaluation step of `AreAgentsHealthy` (agency_health.go:93-113) on
the clients and the statuses the probes have filled in. -/
def checkResults (hostnameOf : HostnameOf) (clients : List Connection)
    (statuses : List agentStatus) : Option String :=
  checkLoop hostnameOf (clients.zip statuses) none 0

/-- `AreAgentsHealthy` (agency_health.go:56-114): every client is probed
(`replies i` is what the goroutine of client `i` observes), all goroutines
are joined, and the statuses are evaluated. -/
def AreAgentsHealthy (hostnameOf : HostnameOf) (clients : List Connection)
    (replies : Nat → ProbeReply) : Option String :=
  checkResults hostnameOf clients
    (clients.enum.map fun ic => probe ic.2 (replies ic.1))

/-- Values of Go's `url.Parse(s)` followed by `Hostname()` on the endpoints
used in the examples of this file.  Strings outside the table are reported as
unparseable; no example uses one except `"127.0.0.1:8531"`, which Go rejects
("first path segment in URL cannot contain colon"). -/
def exampleHostnameOf : HostnameOf
  | "" => some ""
  | "tcp://a:8531" => some "a"
  | "tcp://b:8531" => some "b"
  | "tcp://c:8531" => some "c"
  | "tcp://a:8541" => some "a"
  | "http://a:8531" => some "a"
  | "tcp://localhost:4001" => some "localhost"
  | "tcp://localhost:4006" => some "localhost"
  | "tcp://localhost:4011" => some "localhost"
  | _ => none

/-! ## service/arangodb.go -/

/-- The values of Go's `int`, 64 bits wide in two's complement. -/
abbrev IsGoInt (x : Int) : Prop :=
  -9223372036854775808 ≤ x ∧ x < 9223372036854775808

/-- The `int` a mathematical integer wraps around to: the one value in the
range of `int` that differs from it by a multiple of 2^64. -/
def goInt (x : Int) : Int :=
  (x + 9223372036854775808) % 18446744073709551616 - 9223372036854775808

/-- Go's `a + b` on `int`: the sum wraps around on overflow. -/
def goAdd (a b : Int) : Int :=
  goInt (a + b)

/-- Modelled from the spec: `Peer` is declared in another file of package
`service`.  The spec's data model
gives a peer an identity (opaque string), a network address, a port offset
and role flags; these are the fields `arangodb.go` reads (`p.ID`,
`p.Address`, `p.PortOffset`, `p.HasAgent`). -/
structure Peer where
  ID : String
  Address : String
  PortOffset : Int
  HasAgent : Bool
  deriving DecidableEq, Repr

/-- Modelled from the spec: the type of `Service.myPeers`, "the ordered set
of participating peers"; `arangodb.go` reads its field `Peers`. -/
structure peers where
  Peers : List Peer
  deriving DecidableEq, Repr

/-- Modelled from the spec: `PeerByID` is a method of `peers`, defined
with that type in another file of package `service`.  It returns the peer of the ordered set whose identity
is `id` (the first one, should an identity occur twice) and `ok = false`,
here `none`, when the identity is "missing from the finalized peer set". -/
def peers.PeerByID (p : peers) (id : String) : Option Peer :=
  p.Peers.find? fun x => x.ID == id

/-- The constants of arangodb.go:106-111. -/
def portOffsetAgent : Int := 1

/-- The constant `portOffsetCoordinator` of arangodb.go:108. -/
def portOffsetCoordinator : Int := 2

/-- The constant `portOffsetDBServer` of arangodb.go:109. -/
def portOffsetDBServer : Int := 3

/-- The constant `portOffsetIncrement` of arangodb.go:110:
"our http server, agent, coordinator, dbserver, reserved". -/
def portOffsetIncrement : Int := 5

/-- The constant `maxRecentFailures` of arangodb.go:114. -/
def maxRecentFailures : Nat := 100

/-- An opaque process handle (`Process` is an interface of the runner). -/
structure Process where
  handle : Nat
  deriving DecidableEq, Repr

/-- The fields of `Service` (with the embedded `ServiceConfig`) that
`makeBaseArgs`, `startArangod`, `runArangod` and `needsAgent` read or write.
The fields of type `int` hold integers here, in the range `IsGoInt` for a
value the program can hold; sums of them are taken with `goAdd`. -/
structure Service where
  ID : String
  AgencySize : Int
  ArangodExecutable : String
  ArangodJSstartup : String
  MasterPort : Int
  RrPath : String
  StartCoordinator : Bool
  StartDBserver : Bool
  DataDir : String
  ServerThreads : Int
  DockerContainer : String
  myPeers : peers
  stop : Bool
  deriving Repr

/-- `needsAgent` (arangodb.go:533-536). -/
def needsAgent (s : Service) : Bool :=
  match s.myPeers.PeerByID s.ID with
  | some myPeer => myPeer.HasAgent
  | none => false

/-- `Volume` of the runner, as `makeBaseArgs` fills it in. -/
structure Volume where
  HostPath : String
  ContainerPath : String
  ReadOnly : Bool
  deriving DecidableEq, Repr

/-- What the operating system contributes to `makeBaseArgs`: `runtime.GOOS`,
`filepath.Join` of two elements, and whether `os.Create` of a path fails. -/
structure OSEnv where
  GOOS : String
  Join : String → String → String
  CreateFails : String → Bool

/-- The files of the host: `fs name` is the content of the file `name`, or
`none` when `os.Stat(name)` reports that it does not exist. -/
abbrev FS := String → Option String

/-- Writing `content` to the file `name`. -/
def FS.write (fs : FS) (name content : String) : FS :=
  fun n => if n = name then some content else fs n

/-- `slasher` (arangodb.go:135-137). -/
def slasher (s : String) : String :=
  s.replace "\\" "/"

/-- `fmt.Sprintf(confFileTemplate, port, threads, level, v8contexts)`
(arangodb.go:162-178). -/
def confFileTemplate (port : String) (threads : Int) (level : String) (v8contexts : Int) :
    String :=
  "# ArangoDB configuration file\n" ++
  "#\n" ++
  "# Documentation:\n" ++
  "# https://docs.arangodb.com/Manual/Administration/Configuration/\n" ++
  "#\n" ++
  "\n" ++
  "[server]\n" ++
  "endpoint = tcp://0.0.0.0:" ++ port ++ "\n" ++
  "threads = " ++ toString threads ++ "\n" ++
  "authentication = false\n" ++
  "\n" ++
  "[log]\n" ++
  "level = " ++ level ++ "\n" ++
  "\n" ++
  "[javascript]\n" ++
  "v8-contexts = " ++ toString v8contexts ++ "\n"

/-- What `makeBaseArgs` writes into a configuration file it has just created
(arangodb.go:197-205); for a mode outside the three roles the file stays
empty. -/
def confFileContent (myPort mode : String) : String :=
  if mode = "agent" then confFileTemplate myPort 8 "INFO" 1
  else if mode = "dbserver" then confFileTemplate myPort 4 "INFO" 4
  else if mode = "coordinator" then confFileTemplate myPort 16 "INFO" 4
  else ""

/-- How a call can end without returning: `log.Fatalf` exits the process,
an index out of range panics. -/
inductive Abort where
  | fatal (msg : String)
  | indexOutOfRange (i : Nat)
  deriving DecidableEq, Repr

/-- `fmt.Sprintf("tcp://%s:%d", p.Address, s.MasterPort+p.PortOffset+portOffsetAgent)`,
the agent endpoint `makeBaseArgs` advertises for the peer `p`
(arangodb.go:240 and :266). -/
def agentEndpoint (s : Service) (p : Peer) : String :=
  "tcp://" ++ p.Address ++ ":" ++
    toString (goAdd (goAdd s.MasterPort p.PortOffset) portOffsetAgent)

/-- The loop of arangodb.go:262-268: one `--cluster.agency-endpoint` for each
of `s.myPeers.Peers[0]`, ..., `s.myPeers.Peers[AgencySize-1]`; indexing past
the end of the slice panics. -/
def clusterAgencyEndpoints (s : Service) : List Nat → Except Abort (List String)
  | [] => .ok []
  | i :: is =>
      match s.myPeers.Peers[i]? with
      | none => .error (.indexOutOfRange i)
      | some p =>
          match clusterAgencyEndpoints s is with
          | .error e => .error e
          | .ok rest => .ok ("--cluster.agency-endpoint" :: agentEndpoint s p :: rest)

/-- The loop of arangodb.go:236-243: one `--agency.endpoint` for every peer
with `HasAgent` whose ID is not the own ID. -/
def agencyEndpoints (s : Service) : List Peer → List String
  | [] => []
  | p :: ps =>
      if p.HasAgent && p.ID != s.ID then
        "--agency.endpoint" :: agentEndpoint s p :: agencyEndpoints s ps
      else agencyEndpoints s ps

/-- The configuration-file step of `makeBaseArgs` (arangodb.go:192-207): if
`os.Stat` says the file does not exist it is created and filled; a failing
`os.Create` ends the process in `log.Fatalf`. -/
def writeConfFile (env : OSEnv) (fs : FS) (hostConfFileName myPort mode : String) :
    Except Abort FS :=
  match fs hostConfFileName with
  | none =>
      if env.CreateFails hostConfFileName then
        .error (.fatal ("Could not create configuration file " ++ hostConfFileName))
      else .ok (fs.write hostConfFileName (confFileContent myPort mode))
  | some _ => .ok fs

/-- The argument vector of `makeBaseArgs` (arangodb.go:208-270). -/
def baseArgs (env : OSEnv) (s : Service)
    (myContainerDir myAddress myPort mode : String) : Except Abort (List String) :=
  let containerConfFileName := env.Join myContainerDir "arangod.conf"
  let args : List String := if s.RrPath ≠ "" then [s.RrPath] else []
  let args := args ++
    [ s.ArangodExecutable,
      "-c", slasher containerConfFileName,
      "--database.directory", slasher (env.Join myContainerDir "data"),
      "--javascript.startup-directory", slasher s.ArangodJSstartup,
      "--javascript.app-path", slasher (env.Join myContainerDir "apps"),
      "--log.file", slasher (env.Join myContainerDir "arangod.log"),
      "--log.force-direct", "false" ]
  let args := if s.ServerThreads ≠ 0 then
    args ++ ["--server.threads", toString s.ServerThreads] else args
  let args :=
    if mode = "agent" then
      args ++
        [ "--agency.activate", "true",
          "--agency.my-address", "tcp://" ++ myAddress ++ ":" ++ myPort,
          "--agency.size", toString s.AgencySize,
          "--agency.supervision", "true",
          "--foxx.queues", "false",
          "--server.statistics", "false" ] ++
        agencyEndpoints s s.myPeers.Peers
    else if mode = "dbserver" then
      args ++
        [ "--cluster.my-address", "tcp://" ++ myAddress ++ ":" ++ myPort,
          "--cluster.my-role", "PRIMARY",
          "--cluster.my-local-info", "tcp://" ++ myAddress ++ ":" ++ myPort,
          "--foxx.queues", "false",
          "--server.statistics", "true" ]
    else if mode = "coordinator" then
      args ++
        [ "--cluster.my-address", "tcp://" ++ myAddress ++ ":" ++ myPort,
          "--cluster.my-role", "COORDINATOR",
          "--cluster.my-local-info", "tcp://" ++ myAddress ++ ":" ++ myPort,
          "--foxx.queues", "true",
          "--server.statistics", "true" ]
    else args
  if mode ≠ "agent" then
    match clusterAgencyEndpoints s (List.range s.AgencySize.toNat) with
    | .error e => .error e
    | .ok eps => .ok (args ++ eps)
  else .ok args

/-- The outcome of one call of `makeBaseArgs`: the files afterwards, and
either the returned `(args, configVolumes)` or the way the call was cut
short. -/
structure BaseArgsResult where
  fs : FS
  ret : Except Abort (List String × List Volume)

/-- `makeBaseArgs` (arangodb.go:180-271). -/
def makeBaseArgs (env : OSEnv) (s : Service) (fs : FS)
    (myHostDir myContainerDir myAddress myPort mode : String) : BaseArgsResult :=
  let hostConfFileName := env.Join myHostDir "arangod.conf"
  let containerConfFileName := env.Join myContainerDir "arangod.conf"
  let configVolumes : List Volume :=
    if env.GOOS ≠ "linux" then
      [{ HostPath := hostConfFileName, ContainerPath := containerConfFileName, ReadOnly := true }]
    else []
  match writeConfFile env fs hostConfFileName myPort mode with
  | .error e => { fs := fs, ret := .error e }
  | .ok fs1 =>
      match baseArgs env s myContainerDir myAddress myPort mode with
      | .error e => { fs := fs1, ret := .error e }
      | .ok args => { fs := fs1, ret := .ok (args, configVolumes) }

/-- The first line of `startArangod` (arangodb.go:312): the port the server
of a role is started on; `portOffset` is `myPeer.PortOffset`. -/
def myPort (s : Service) (portOffset serverPortOffset : Int) : Int :=
  goAdd (goAdd s.MasterPort portOffset) serverPortOffset

/-- The calls `go runArangod(offset, mode, ...)` of `startRunning`
(arangodb.go:400-417), in program order: the roles this instance runs, each
with the `serverPortOffset` it is started with. -/
def launchedRoles (s : Service) : List (Int × String) :=
  (if needsAgent s then [(portOffsetAgent, "agent")] else []) ++
  (if s.StartDBserver then [(portOffsetDBServer, "dbserver")] else []) ++
  (if s.StartCoordinator then [(portOffsetCoordinator, "coordinator")] else [])

/-- The ports of `startRunning`: `none` when the own ID is not in the peer
set (`log.Fatalf`, arangodb.go:284-287), else the pair (mode, port) for every
role that is launched. -/
def startRunningPorts (s : Service) : Option (List (String × Int)) :=
  match s.myPeers.PeerByID s.ID with
  | none => none
  | some myPeer =>
      some ((launchedRoles s).map fun r => (r.2, myPort s myPeer.PortOffset r.1))

/-- `time.Second` in nanoseconds, the unit of `time.Duration`. -/
def Second : Int := 1000000000

/-- What one pass through the body of the `for` loop of `runArangod` sees:
* `start`: the value `startArangod(serverPortOffset, mode, restart)` returns,
  an error or a process handle;
* `uptime`: `time.Since(startTime)` once `p.Wait()` has returned;
* `stopSet`: whether `s.stop` has been set from outside this loop (root
  context cancelled, or another role gave up) by the time line 385 reads
  it. -/
structure Attempt where
  start : Except String Process
  uptime : Int
  stopSet : Bool

/-- Why the loop of `runArangod` was left. -/
inductive Exit where
  | startError
  | stopSeen
  | gaveUp
  deriving DecidableEq, Repr

/-- The variables of one `runArangod` loop: the locals `restart` and
`recentFailures`, the shared flag `s.stop`, the handle `*processVar`, and,
for reference only, the restart generations handed to `startArangod` so far
(latest first).  `restart` only counts up by one per restart, so it is a
natural number. -/
structure LoopState where
  restart : Nat
  recentFailures : Nat
  stop : Bool
  processVar : Option Process
  started : List Nat
  deriving DecidableEq, Repr

/-- The state `runArangod` starts from (arangodb.go:355-356). -/
def LoopState.init (stop : Bool) (processVar : Option Process) : LoopState :=
  { restart := 0, recentFailures := 0, stop := stop, processVar := processVar, started := [] }

/-- One pass through the loop body (arangodb.go:358-396): the state after
it, and the reason for a `break`, if there was one. -/
def runArangodStep (a : Attempt) (st : LoopState) : LoopState × Option Exit :=
  let st := { st with started := st.restart :: st.started }
  match a.start with
  | .error _ => (st, some .startError)
  | .ok p =>
      let st := { st with processVar := some p }
      let st := { st with
        recentFailures := if a.uptime < Second * 30 then st.recentFailures + 1 else 0 }
      let st := { st with stop := st.stop || a.stopSet }
      if st.stop then (st, some .stopSeen)
      else if st.recentFailures ≥ maxRecentFailures then
        ({ st with stop := true }, some .gaveUp)
      else ({ st with restart := st.restart + 1 }, none)

/-- The loop of `runArangod` (arangodb.go:354-398), run for at most `fuel`
passes; `attempts k` is what the pass with restart generation `k` sees.
`none` as exit means the loop is still going when the fuel is used up. -/
def runArangod (attempts : Nat → Attempt) : Nat → LoopState → LoopState × Option Exit
  | 0, st => (st, none)
  | fuel + 1, st =>
      match runArangodStep (attempts st.restart) st with
      | (st1, some e) => (st1, some e)
      | (st1, none) => runArangod attempts fuel st1

/-- What the runner and the readiness probe answer during one call of
`startArangod`: `runner.GetRunningServer(myHostDir)`, the first result of
`testInstance`, `runner.GetContainerDir`, and `runner.Start(...)`. -/
structure RunnerReplies where
  GetRunningServer : Except String (Option Process)
  up : Bool
  GetContainerDir : String → String
  Start : Except String Process

/-- The calls `startArangod` makes on the runner and on process handles. -/
inductive RunnerCall where
  | getRunningServer (myHostDir : String)
  | terminate (p : Process)
  | start (command : String) (args : List String) (vols : List Volume) (ports : List Int)
      (containerName myHostDir : String)
  deriving DecidableEq, Repr

/-- The instance name of `startArangod` (arangodb.go:341-345):
`fmt.Sprintf("%s%s-%s-%d-%s-%d", containerNamePrefix, mode, s.ID, restart, myHost, myPort)`
with the prefix `s.DockerContainer + "-"` when a container name is set. -/
def containerName (s : Service) (mode : String) (restart : Nat) (myHost : String)
    (port : Int) : String :=
  let containerNameHead := if s.DockerContainer ≠ "" then s.DockerContainer ++ "-" else ""
  containerNameHead ++ mode ++ "-" ++ s.ID ++ "-" ++ toString restart ++ "-" ++ myHost ++
    "-" ++ toString port

/-- `addDataVolumes` of `startRunning` (arangodb.go:298-309). -/
def addDataVolumes (env : OSEnv) (configVolumes : List Volume)
    (hostPath containerPath : String) : List Volume :=
  if env.GOOS = "linux" then
    [{ HostPath := hostPath, ContainerPath := containerPath, ReadOnly := false }]
  else configVolumes

/-- `writeCommand` (arangodb.go:273-280): the invocation is written once; a
failing `ioutil.WriteFile` (the file cannot be created) is only logged. -/
def writeCommand (env : OSEnv) (fs : FS) (filename : String) (args : List String) : FS :=
  let content := String.intercalate " \\\n" args ++ "\n"
  match fs filename with
  | none => if env.CreateFails filename then fs else fs.write filename content
  | some _ => fs

/-- The outcome of one call of `startArangod`: the files afterwards, the
calls made on the runner, and what is returned: the pair `(Process, error)`
as an `Except`, unless `makeBaseArgs` cut the call short. -/
structure StartResult where
  fs : FS
  calls : List RunnerCall
  ret : Except Abort (Except String Process)

/-- `startArangod` (arangodb.go:311-352); `portOffset` and `myHost` are
`myPeer.PortOffset` and `myPeer.Address` of `startRunning`.  Directories
(`os.MkdirAll`) are not part of `FS`. -/
def startArangod (env : OSEnv) (s : Service) (portOffset : Int) (myHost : String)
    (r : RunnerReplies) (fs : FS) (serverPortOffset : Int) (mode : String) (restart : Nat) :
    StartResult :=
  let port := myPort s portOffset serverPortOffset
  let myHostDir := env.Join s.DataDir (mode ++ toString port)
  match r.GetRunningServer with
  | .error e => { fs := fs, calls := [.getRunningServer myHostDir], ret := .ok (.error e) }
  | .ok running =>
      match running, r.up with
      | some p, true =>
          { fs := fs, calls := [.getRunningServer myHostDir], ret := .ok (.ok p) }
      | _, _ =>
          let calls : List RunnerCall := .getRunningServer myHostDir ::
            (match running with
             | some p => [.terminate p]
             | none => [])
          let myContainerDir := r.GetContainerDir myHostDir
          let b := makeBaseArgs env s fs myHostDir myContainerDir myHost (toString port) mode
          match b.ret with
          | .error a => { fs := b.fs, calls := calls, ret := .error a }
          | .ok (args, vols) =>
              let vols := addDataVolumes env vols myHostDir myContainerDir
              let fs2 := writeCommand env b.fs (env.Join myHostDir "arangod_command.txt") args
              match args with
              | [] => { fs := fs2, calls := calls, ret := .error (.indexOutOfRange 0) }
              | command :: rest =>
                  let call : RunnerCall := .start command rest vols [port]
                    (containerName s mode restart myHost port) myHostDir
                  match r.Start with
                  | .error e => { fs := fs2, calls := calls ++ [call], ret := .ok (.error e) }
                  | .ok p => { fs := fs2, calls := calls ++ [call], ret := .ok (.ok p) }

/-- The handles `s.servers` holds when the shutdown sequence runs. -/
structure Servers where
  agentProc : Option Process
  dbserverProc : Option Process
  coordinatorProc : Option Process
  deriving DecidableEq, Repr

/-- The calls of the shutdown sequence: `p.Terminate()`, `p.Cleanup()` on a
process handle, and `runner.Cleanup()`. -/
inductive ShutdownAction where
  | terminate (p : Process)
  | cleanup (p : Process)
  | runnerCleanup
  deriving DecidableEq, Repr

/-- What the shutdown sequence has done so far: the calls made, in order, and
the warnings logged for calls that returned an error. -/
structure ShutdownLog where
  actions : List ShutdownAction
  warnings : List String
  deriving DecidableEq, Repr

/-- One call of the shutdown sequence: `if err := call(); err != nil` logs
`warning` and goes on. -/
def shutdownCall (fails : ShutdownAction → Bool) (warning : String) (a : ShutdownAction)
    (log : ShutdownLog) : ShutdownLog :=
  { actions := log.actions ++ [a],
    warnings := if fails a then log.warnings ++ [warning] else log.warnings }

/-- One guarded call on a handle: `if p := handle; p != nil` makes the call. -/
def shutdownHandle (fails : ShutdownAction → Bool) (warning : String)
    (handle : Option Process) (call : Process → ShutdownAction) (log : ShutdownLog) :
    ShutdownLog :=
  match handle with
  | some p => shutdownCall fails warning (call p) log
  | none => log

/-- The shutdown sequence of `startRunning` (arangodb.go:426-466), entered
once the loop of lines 419-424 has seen `s.stop`; `fails a` tells whether the
call `a` returns an error.  The two `time.Sleep` calls do not show. -/
def shutdown (fails : ShutdownAction → Bool) (servers : Servers) : ShutdownLog :=
  let log : ShutdownLog := { actions := [], warnings := [] }
  let log := shutdownHandle fails "Failed to terminate coordinator"
    servers.coordinatorProc .terminate log
  let log := shutdownHandle fails "Failed to terminate dbserver"
    servers.dbserverProc .terminate log
  let log := shutdownHandle fails "Failed to terminate agent"
    servers.agentProc .terminate log
  let log := shutdownHandle fails "Failed to cleanup coordinator"
    servers.coordinatorProc .cleanup log
  let log := shutdownHandle fails "Failed to cleanup dbserver"
    servers.dbserverProc .cleanup log
  let log := shutdownHandle fails "Failed to cleanup agent"
    servers.agentProc .cleanup log
  shutdownCall fails "Failed to cleanup runner" .runnerCleanup log

/-- The loop of arangodb.go:419-424 (sleep a second, leave once `s.stop` is
set) followed by the shutdown sequence: `stopAt k` is the
value of `s.stop` at the `k`-th look; `none` when the flag has not been seen
within `fuel` looks. -/
def waitAndShutdown (stopAt : Nat → Bool) (fails : ShutdownAction → Bool) (servers : Servers) :
    Nat → Nat → Option ShutdownLog
  | 0, _ => none
  | fuel + 1, k =>
      if stopAt k then some (shutdown fails servers)
      else waitAndShutdown stopAt fails servers fuel (k + 1)

/-- The part of the argument vector of `makeBaseArgs` that all roles share
(arangodb.go:208-225), as `baseArgs` builds it. -/
def commonArgs (env : OSEnv) (s : Service) (myContainerDir : String) : List String :=
  (if s.RrPath ≠ "" then [s.RrPath] else []) ++
    [ s.ArangodExecutable,
      "-c", slasher (env.Join myContainerDir "arangod.conf"),
      "--database.directory", slasher (env.Join myContainerDir "data"),
      "--javascript.startup-directory", slasher s.ArangodJSstartup,
      "--javascript.app-path", slasher (env.Join myContainerDir "apps"),
      "--log.file", slasher (env.Join myContainerDir "arangod.log"),
      "--log.force-direct", "false" ] ++
    (if s.ServerThreads ≠ 0 then ["--server.threads", toString s.ServerThreads] else [])

/-- The fixed arguments the `switch mode` of `makeBaseArgs` adds for the
data-server and the coordinator (arangodb.go:244-260). -/
def clusterRoleArgs (myAddress myPort mode : String) : List String :=
  if mode = "dbserver" then
    [ "--cluster.my-address", "tcp://" ++ myAddress ++ ":" ++ myPort,
      "--cluster.my-role", "PRIMARY",
      "--cluster.my-local-info", "tcp://" ++ myAddress ++ ":" ++ myPort,
      "--foxx.queues", "false",
      "--server.statistics", "true" ]
  else if mode = "coordinator" then
    [ "--cluster.my-address", "tcp://" ++ myAddress ++ ":" ++ myPort,
      "--cluster.my-role", "COORDINATOR",
      "--cluster.my-local-info", "tcp://" ++ myAddress ++ ":" ++ myPort,
      "--foxx.queues", "true",
      "--server.statistics", "true" ]
  else []

/-- The `configVolumes` of `makeBaseArgs` (arangodb.go:184-190). -/
def confVolumes (env : OSEnv) (myHostDir myContainerDir : String) : List Volume :=
  if env.GOOS ≠ "linux" then
    [{ HostPath := env.Join myHostDir "arangod.conf",
       ContainerPath := env.Join myContainerDir "arangod.conf", ReadOnly := true }]
  else []

/-! ## client/error.go -/

/-- `StatusError` (error.go:47-50). -/
structure StatusError where
  StatusCode : Int
  message : String
  deriving DecidableEq, Repr

/-- `StatusError.Error` (error.go:52-57). -/
def StatusError.Error (e : StatusError) : String :=
  if e.message ≠ "" then e.message else "Status " ++ toString e.StatusCode

/-- The values of Go's `error` interface that `error.go` tells apart: `nil`,
a `StatusError`, a wrapper made by `errors.WithStack`, and any other error
(one that is no `StatusError` and has no `Cause` method). -/
inductive GoError where
  | nil
  | status (serr : StatusError)
  | other (text : String)
  | withStack (err : GoError)
  deriving DecidableEq, Repr

/-- `errors.Cause` of github.com/pkg/errors: unwrap as long as the error has
a `Cause` method. -/
def Cause : GoError → GoError
  | .withStack err => Cause err
  | err => err

/-- `maskAny = errors.WithStack` (error.go:35); `WithStack(nil)` is `nil`. -/
def maskAny : GoError → GoError
  | .nil => .nil
  | err => .withStack err

/-- `IsStatusError` (error.go:61-67). -/
def IsStatusError (err : GoError) : Int × Bool :=
  match Cause err with
  | .status serr => (serr.StatusCode, true)
  | _ => (0, false)

/-- `IsStatusErrorWithCode` (error.go:71-77). -/
def IsStatusErrorWithCode (err : GoError) (code : Int) : Bool :=
  match Cause err with
  | .status serr => serr.StatusCode == code
  | _ => false

/-- `http.StatusNotFound`. -/
def StatusNotFound : Int := 404

/-- `http.StatusServiceUnavailable`. -/
def StatusServiceUnavailable : Int := 503

/-- `http.StatusBadRequest`. -/
def StatusBadRequest : Int := 400

/-- `http.StatusPreconditionFailed`. -/
def StatusPreconditionFailed : Int := 412

/-- `http.StatusInternalServerError`. -/
def StatusInternalServerError : Int := 500

/-- `IsNotFound` (error.go:85-87). -/
def IsNotFound (err : GoError) : Bool :=
  IsStatusErrorWithCode err StatusNotFound

/-- `IsServiceUnavailable` (error.go:90-92). -/
def IsServiceUnavailable (err : GoError) : Bool :=
  IsStatusErrorWithCode err StatusServiceUnavailable

/-- `IsBadRequest` (error.go:95-97). -/
def IsBadRequest (err : GoError) : Bool :=
  IsStatusErrorWithCode err StatusBadRequest

/-- `IsPreconditionFailed` (error.go:100-102). -/
def IsPreconditionFailed (err : GoError) : Bool :=
  IsStatusErrorWithCode err StatusPreconditionFailed

/-- `IsInternalServer` (error.go:105-107). -/
def IsInternalServer (err : GoError) : Bool :=
  IsStatusErrorWithCode err StatusInternalServerError

/-- `NewNotFoundError` (error.go:110-112). -/
def NewNotFoundError (msg : String) : GoError :=
  .status { StatusCode := StatusNotFound, message := msg }

/-- `NewServiceUnavailableError` (error.go:115-117). -/
def NewServiceUnavailableError (msg : String) : GoError :=
  .status { StatusCode := StatusServiceUnavailable, message := msg }

/-- `NewBadRequestError` (error.go:120-122). -/
def NewBadRequestError (msg : String) : GoError :=
  .status { StatusCode := StatusBadRequest, message := msg }

/-- `NewPreconditionFailedError` (error.go:125-127). -/
def NewPreconditionFailedError (msg : String) : GoError :=
  .status { StatusCode := StatusPreconditionFailed, message := msg }

/-- `NewInternalServerError` (error.go:130-132). -/
def NewInternalServerError (msg : String) : GoError :=
  .status { StatusCode := StatusInternalServerError, message := msg }

/-- `ErrorResponse` (error.go:80-82). -/
structure ErrorResponse where
  Error : String
  deriving DecidableEq, Repr

/-- What `ParseResponseError` reads of an `http.Response`: the status code
and the bytes `ioutil.ReadAll(r.Body)` yields. -/
structure Response where
  StatusCode : Int
  Body : String
  deriving DecidableEq, Repr

/-- Go's `json.Unmarshal(body, &errRes)` for an `ErrorResponse`: `none` when
it returns an error, else the decoded value. -/
abbrev Unmarshal := String → Option ErrorResponse

/-- `ParseResponseError` (error.go:137-154); `body = none` is a `nil`
slice. -/
def ParseResponseError (unmarshal : Unmarshal) (r : Response) (body : Option String) :
    StatusError :=
  let body :=
    match body with
    | none => r.Body
    | some b => b
  if body ≠ "" then
    match unmarshal body with
    | some errRes => { StatusCode := r.StatusCode, message := errRes.Error }
    | none => { StatusCode := r.StatusCode, message := "" }
  else { StatusCode := r.StatusCode, message := "" }

/-! ## Readings of the specification -/

/-- The value `v` follows the flag `flag` somewhere in the argument vector:
"`flag v` is listed". -/
def IsFlagValue (flag v : String) (args : List String) : Prop :=
  ∃ l r, args = l ++ flag :: v :: r

/-- The value of a decimal digit character. -/
def digitVal (c : Char) : Nat := c.toNat - 48

/-- The length of the trailing run of exits with an uptime below 30 seconds
among the first `n` exits of a loop. -/
def trailingQuickExits (attempts : Nat → Attempt) (n : Nat) : Nat :=
  (((List.range n).map fun k => (attempts k).uptime).reverse.takeWhile
    fun u => decide (u < Second * 30)).length

/-- The spec's reading of "all reported leader endpoints share one hostname"
under its hostname-only endpoint equality ("equal if literally identical, or
if parseable and their hostnames match"): the reported endpoints are all one
literal string, or they all parse and have one hostname. -/
def shareOneHostname (hostnameOf : HostnameOf) (statuses : List agentStatus) : Prop :=
  (∃ e, ∀ s ∈ statuses, s.LeaderEndpoint = e) ∨
  (∃ h, ∀ s ∈ statuses, hostnameOf s.LeaderEndpoint = some h)

/-! ## Example data -/

/-- Three agency members on three hosts. -/
def exampleClients : List Connection :=
  [⟨["tcp://a:8531"]⟩, ⟨["tcp://b:8531"]⟩, ⟨["tcp://c:8531"]⟩]

/-- Three agency members on one host, as in a local test cluster. -/
def exampleLocalClients : List Connection :=
  [⟨["tcp://localhost:4001"]⟩, ⟨["tcp://localhost:4006"]⟩, ⟨["tcp://localhost:4011"]⟩]

/-- Member 0 answers as leader, members 1 and 2 redirect to member 0's host
(with another scheme). -/
def exampleHealthy : List agentStatus :=
  [ { IsLeader := true, LeaderEndpoint := "tcp://a:8531", IsResponding := true },
    { IsLeader := false, LeaderEndpoint := "http://a:8531", IsResponding := true },
    { IsLeader := false, LeaderEndpoint := "http://a:8531", IsResponding := true } ]

/-- Member 0 answers as leader, member 1 redirects to host `b`, member 2
does not respond. -/
def exampleSplitThenDown : List agentStatus :=
  [ { IsLeader := true, LeaderEndpoint := "tcp://a:8531", IsResponding := true },
    { IsLeader := false, LeaderEndpoint := "tcp://b:8531", IsResponding := true },
    { IsLeader := false, LeaderEndpoint := "", IsResponding := false } ]

/-- What the probes of `exampleClients` see when member 0 answers as leader,
member 1 redirects to host `b` and member 2 times out; the statuses are
`exampleSplitThenDown`. -/
def exampleSplitReplies : Nat → ProbeReply
  | 0 => .validRead
  | 1 => .redirect true "tcp://b:8531"
  | _ => .other

/-- A process that starts and exits after one second of uptime on every
run; nobody else sets the stop flag. -/
def exampleQuickAttempts : Nat → Attempt :=
  fun k => { start := .ok ⟨k⟩, uptime := Second, stopSet := false }

/-- A process that starts and exits after 60 seconds of uptime on every run;
nobody else sets the stop flag. -/
def exampleLongAttempts : Nat → Attempt :=
  fun k => { start := .ok ⟨k⟩, uptime := Second * 60, stopSet := false }

/-- Modelled from the spec: the port of the starter's own HTTP server (the
spec's "control port"), `MasterPort + PortOffset` in Go's `int`; it is the
first of the five slots the comment on `portOffsetIncrement` names ("our http
server, agent, coordinator, dbserver, reserved").  The code that listens on
it is in another file of package `service`. -/
def controlPort (s : Service) (p : Peer) : Int :=
  goAdd s.MasterPort p.PortOffset

/-- The ports a peer occupies on its host, in the order of the comment on
`portOffsetIncrement`: the control port of the starter and the ports
`startArangod` computes for the three roles. -/
def peerPorts (s : Service) (p : Peer) : List Int :=
  [ controlPort s p,
    myPort s p.PortOffset portOffsetAgent,
    myPort s p.PortOffset portOffsetCoordinator,
    myPort s p.PortOffset portOffsetDBServer ]

/-- Four peers on one host, every one of them flagged `HasAgent`. -/
def examplePeers : peers :=
  { Peers :=
      [ { ID := "a", Address := "localhost", PortOffset := 0, HasAgent := true },
        { ID := "b", Address := "localhost", PortOffset := 5, HasAgent := true },
        { ID := "c", Address := "localhost", PortOffset := 10, HasAgent := true },
        { ID := "d", Address := "localhost", PortOffset := 15, HasAgent := true } ] }

/-- The starter with ID `d` of `examplePeers`, agency size 3. -/
def exampleService : Service :=
  { ID := "d", AgencySize := 3, ArangodExecutable := "/usr/sbin/arangod",
    ArangodJSstartup := "/usr/share/arangodb3/js", MasterPort := 4000, RrPath := "",
    StartCoordinator := true, StartDBserver := true, DataDir := "/data", ServerThreads := 0,
    DockerContainer := "", myPeers := examplePeers, stop := false }

/-- The starter with ID `b` of the first three peers of `examplePeers`. -/
def exampleServiceB : Service :=
  { exampleService with ID := "b", myPeers := { Peers := examplePeers.Peers.take 3 } }

/-- A Linux host on which `os.Create` succeeds; `Join` holds the value of
`filepath.Join` for a clean directory name and a file name. -/
def exampleEnv : OSEnv :=
  { GOOS := "linux", Join := fun dir name => dir ++ "/" ++ name, CreateFails := fun _ => false }

/-- A host on which the agent's configuration file exists, with a content
somebody has edited by hand. -/
def exampleFS : FS :=
  fun n => if n = "/data/agent4016/arangod.conf" then some "[server]\nthreads = 2\n" else none

/-- Four peers on one host of which the last three are flagged `HasAgent`. -/
def exampleShiftedPeers : peers :=
  { Peers :=
      [ { ID := "a", Address := "localhost", PortOffset := 0, HasAgent := false },
        { ID := "b", Address := "localhost", PortOffset := 5, HasAgent := true },
        { ID := "c", Address := "localhost", PortOffset := 10, HasAgent := true },
        { ID := "d", Address := "localhost", PortOffset := 15, HasAgent := true } ] }

/-- The starter with ID `d` of `exampleShiftedPeers`, agency size 3. -/
def exampleShiftedService : Service :=
  { exampleService with myPeers := exampleShiftedPeers }

/-- All three roles have a handle at shutdown. -/
def exampleServers : Servers :=
  { agentProc := some ⟨1⟩, dbserverProc := some ⟨2⟩, coordinatorProc := some ⟨3⟩ }

/-- A JSON decoder on three bodies: an error document, an empty object and
text that is no JSON. -/
def exampleUnmarshal : Unmarshal
  | "\x7b\"Error\": \"no such peer\"\x7d" => some ⟨"no such peer"⟩
  | "\x7b\x7d" => some ⟨""⟩
  | _ => none

/-- A process whose every third run stays up for exactly 30 seconds and
whose other runs exit after one second. -/
def exampleMixedAttempts : Nat → Attempt :=
  fun k =>
    { start := .ok ⟨k⟩, uptime := if k % 3 = 2 then Second * 30 else Second, stopSet := false }

/-- A runner that finds no running server and starts the process. -/
def exampleReplies : RunnerReplies :=
  { GetRunningServer := .ok none, up := false, GetContainerDir := fun dir => dir,
    Start := .ok ⟨7⟩ }

/-- A runner whose locate-running call fails. -/
def exampleFailingReplies : RunnerReplies :=
  { exampleReplies with GetRunningServer := .error "cannot start" }

/-- A process that runs for 60 seconds twice and then cannot be started. -/
def exampleFailingAttempts : Nat → Attempt :=
  fun k =>
    { start := if k < 2 then .ok ⟨k⟩ else .error "cannot start", uptime := Second * 60,
      stopSet := false }

/-- The members of `exampleHealthy` in another order: the leader last. -/
def exampleHealthyReordered : List agentStatus :=
  [ { IsLeader := false, LeaderEndpoint := "http://a:8531", IsResponding := true },
    { IsLeader := false, LeaderEndpoint := "http://a:8531", IsResponding := true },
    { IsLeader := true, LeaderEndpoint := "tcp://a:8531", IsResponding := true } ]

/-- The starter `b` of a three-peer cluster whose base port is the largest
`int`: every port sum overflows. -/
def exampleWrapService : Service :=
  { exampleServiceB with MasterPort := 9223372036854775807 }

/-- Two peers with different IDs at one address and port offset, both
flagged `HasAgent`. -/
def exampleTwinPeers : peers :=
  { Peers :=
      [ { ID := "a", Address := "localhost", PortOffset := 0, HasAgent := true },
        { ID := "b", Address := "localhost", PortOffset := 0, HasAgent := true } ] }

/-- The starter with ID `a` of `exampleTwinPeers`. -/
def exampleTwinService : Service :=
  { exampleService with ID := "a", AgencySize := 2, myPeers := exampleTwinPeers }

/-- The starter with ID `a` of the two peers of `exampleTwinPeers`, with
agency size 3. -/
def exampleShortService : Service :=
  { exampleTwinService with AgencySize := 3 }

/-! ## IsSameEndpoint -/

theorem isSameEndpoint_iff (hostnameOf : HostnameOf) (a b : String) :
    IsSameEndpoint hostnameOf a b = true ↔
      a = b ∨ ∃ h, hostnameOf a = some h ∧ hostnameOf b = some h := by
  unfold IsSameEndpoint
  by_cases hab : a = b
  · simp [hab]
  · simp only [hab, if_false, false_or]
    cases ha : hostnameOf a with
    | none => simp
    | some x =>
      cases hb : hostnameOf b with
      | none => simp
      | some y =>
        simp only [beq_iff_eq, Option.some.injEq, exists_eq_left']
        exact eq_comm

theorem isSameEndpoint_refl (hostnameOf : HostnameOf) (a : String) :
    IsSameEndpoint hostnameOf a a = true := by
  simp [IsSameEndpoint]

theorem isSameEndpoint_symm (hostnameOf : HostnameOf) {a b : String}
    (h : IsSameEndpoint hostnameOf a b = true) : IsSameEndpoint hostnameOf b a = true := by
  rw [isSameEndpoint_iff] at h ⊢
  rcases h with h | ⟨x, hx, hy⟩
  · exact Or.inl h.symm
  · exact Or.inr ⟨x, hy, hx⟩

theorem isSameEndpoint_trans (hostnameOf : HostnameOf) {a b c : String}
    (hab : IsSameEndpoint hostnameOf a b = true) (hbc : IsSameEndpoint hostnameOf b c = true) :
    IsSameEndpoint hostnameOf a c = true := by
  rw [isSameEndpoint_iff] at hab hbc ⊢
  rcases hab with rfl | ⟨x, hax, hbx⟩
  · exact hbc
  · rcases hbc with rfl | ⟨y, hby, hcy⟩
    · exact Or.inr ⟨x, hax, hbx⟩
    · have hxy : x = y := by
        rw [hbx] at hby
        exact Option.some.inj hby
      subst hxy
      exact Or.inr ⟨x, hax, hcy⟩

/-- With an equivalence, a chain from `a` through `l` is the same as `a`
being related to every element of `l`. -/
theorem chain_isSameEndpoint_iff (hostnameOf : HostnameOf) (a : String) (l : List String) :
    List.Chain (fun x y => IsSameEndpoint hostnameOf x y = true) a l ↔
      ∀ b ∈ l, IsSameEndpoint hostnameOf a b = true := by
  induction l generalizing a with
  | nil => simp
  | cons c l ih =>
    rw [List.chain_cons, ih]
    constructor
    · rintro ⟨hac, hall⟩ b hb
      rcases List.mem_cons.mp hb with rfl | hb
      · exact hac
      · exact isSameEndpoint_trans hostnameOf hac (hall b hb)
    · intro hall
      have hac := hall c (List.mem_cons_self _ _)
      refine ⟨hac, fun b hb => ?_⟩
      exact isSameEndpoint_trans hostnameOf (isSameEndpoint_symm hostnameOf hac)
        (hall b (List.mem_cons_of_mem _ hb))

/-- Every endpoint of `l` is the same endpoint as `a` exactly when `a` and the
endpoints of `l` are one literal string or have one hostname. -/
theorem forall_isSameEndpoint_iff (hostnameOf : HostnameOf) (a : String) (l : List String) :
    (∀ b ∈ l, IsSameEndpoint hostnameOf a b = true) ↔
      ((∃ e, ∀ b ∈ a :: l, b = e) ∨ (∃ h, ∀ b ∈ a :: l, hostnameOf b = some h)) := by
  constructor
  · intro hall
    by_cases hlit : ∀ b ∈ l, b = a
    · refine Or.inl ⟨a, fun b hb => ?_⟩
      rcases List.mem_cons.mp hb with rfl | hb
      · rfl
      · exact hlit b hb
    · push_neg at hlit
      obtain ⟨b, hb, hne⟩ := hlit
      have hab := (isSameEndpoint_iff hostnameOf a b).mp (hall b hb)
      rcases hab with rfl | ⟨h, hah, _⟩
      · exact absurd rfl hne
      · refine Or.inr ⟨h, fun c hc => ?_⟩
        rcases List.mem_cons.mp hc with rfl | hc
        · exact hah
        · rcases (isSameEndpoint_iff hostnameOf a c).mp (hall c hc) with rfl | ⟨h2, ha2, hc2⟩
          · exact hah
          · rw [hah] at ha2
            rw [hc2, ← Option.some.inj ha2]
  · rintro (⟨e, he⟩ | ⟨h, hh⟩) b hb
    · have h1 := he a (List.mem_cons_self _ _)
      have h2 := he b (List.mem_cons_of_mem _ hb)
      rw [h1, h2]
      exact isSameEndpoint_refl hostnameOf e
    · exact (isSameEndpoint_iff hostnameOf a b).mpr
        (Or.inr ⟨h, hh a (List.mem_cons_self _ _), hh b (List.mem_cons_of_mem _ hb)⟩)

/-! ## The evaluation loop of AreAgentsHealthy -/

/-- The loop from an index `i > 0` on: it ends without error exactly when all
remaining members respond, the leader endpoints from `prev` on form a chain
of same endpoints, and the leaders counted so far and the remaining ones are
one in total. -/
theorem checkLoop_some_eq_none_iff (hostnameOf : HostnameOf)
    (l : List (Connection × agentStatus)) (p : agentStatus) (n : Nat) :
    checkLoop hostnameOf l (some p) n = none ↔
      (∀ x ∈ l, x.2.IsResponding = true) ∧
      List.Chain (fun x y => IsSameEndpoint hostnameOf x y = true) p.LeaderEndpoint
        (l.map fun x => x.2.LeaderEndpoint) ∧
      n + (l.filter fun x => x.2.IsLeader).length = 1 := by
  induction l generalizing p n with
  | nil => simp [checkLoop]
  | cons x l ih =>
    obtain ⟨c, st⟩ := x
    unfold checkLoop
    cases hr : st.IsResponding with
    | false => simp [hr]
    | true =>
      cases hs : IsSameEndpoint hostnameOf p.LeaderEndpoint st.LeaderEndpoint with
      | false => simp [hr, hs]
      | true =>
        cases hl : st.IsLeader with
        | false => simp [hr, hs, hl, ih]
        | true =>
          simp [hr, hs, hl, ih, List.filter_cons]
          intro _ _
          omega

/-- The whole loop, from index 0. -/
theorem checkLoop_none_eq_none_iff (hostnameOf : HostnameOf)
    (l : List (Connection × agentStatus)) :
    checkLoop hostnameOf l none 0 = none ↔
      (∀ x ∈ l, x.2.IsResponding = true) ∧
      List.Chain' (fun x y => IsSameEndpoint hostnameOf x y = true)
        (l.map fun x => x.2.LeaderEndpoint) ∧
      (l.filter fun x => x.2.IsLeader).length = 1 := by
  cases l with
  | nil => simp [checkLoop]
  | cons x l =>
    obtain ⟨c, st⟩ := x
    unfold checkLoop
    cases hr : st.IsResponding with
    | false => simp [hr]
    | true =>
      cases hl : st.IsLeader with
      | false => simp [hr, hl, checkLoop_some_eq_none_iff, List.Chain']
      | true => simp [hr, hl, checkLoop_some_eq_none_iff, List.Chain', List.filter_cons]

/-- A chain of same endpoints through the reported leader endpoints is what
the spec calls sharing one hostname. -/
theorem chain_iff_shareOneHostname (hostnameOf : HostnameOf) (statuses : List agentStatus) :
    List.Chain' (fun x y => IsSameEndpoint hostnameOf x y = true)
        (statuses.map fun s => s.LeaderEndpoint) ↔
      shareOneHostname hostnameOf statuses := by
  cases statuses with
  | nil => simp [shareOneHostname]
  | cons s l =>
    simp only [List.map_cons, List.Chain', chain_isSameEndpoint_iff, forall_isSameEndpoint_iff,
      shareOneHostname]
    simp

/-- The statuses are the second components of the zipped list the loop
runs over. -/
theorem map_snd_zip_of_length_eq (clients : List Connection) (statuses : List agentStatus)
    (hlen : clients.length = statuses.length) :
    (clients.zip statuses).map Prod.snd = statuses := by
  induction clients generalizing statuses with
  | nil =>
    cases statuses with
    | nil => rfl
    | cons _ _ => simp at hlen
  | cons c cs ih =>
    cases statuses with
    | nil => simp at hlen
    | cons t ts =>
      simp only [List.length_cons, Nat.add_right_cancel_iff] at hlen
      simp [ih ts hlen]

/-- C1: for every list of agent probe results, one per agency member, the
evaluation step of `AreAgentsHealthy` returns nil if and only if every
member is responding, exactly one member has is-leader = true, and all
reported leader endpoints share one hostname, in the sense of the spec's
hostname-only endpoint equality: they are one literal string, or all of them
parse and have one hostname. -/
theorem checkResults_eq_none_iff (hostnameOf : HostnameOf) (clients : List Connection)
    (statuses : List agentStatus) (hlen : clients.length = statuses.length) :
    checkResults hostnameOf clients statuses = none ↔
      (∀ s ∈ statuses, s.IsResponding = true) ∧
      (statuses.filter fun s => s.IsLeader).length = 1 ∧
      shareOneHostname hostnameOf statuses := by
  have hmap := map_snd_zip_of_length_eq clients statuses hlen
  unfold checkResults
  rw [checkLoop_none_eq_none_iff, ← chain_iff_shareOneHostname]
  generalize clients.zip statuses = l at hmap
  subst hmap
  have h1 : (∀ x ∈ l, x.2.IsResponding = true) ↔
      ∀ s ∈ l.map Prod.snd, s.IsResponding = true := by
    simp only [List.mem_map, Prod.exists, exists_eq_right, Prod.forall]
    exact ⟨fun h s ⟨a, ha⟩ => h a s ha, fun h a b hab => h b ⟨a, hab⟩⟩
  have h2 : (l.map fun x => x.2.LeaderEndpoint) =
      (l.map Prod.snd).map fun s => s.LeaderEndpoint := by simp
  have h3 : (l.filter fun x => x.2.IsLeader).length =
      ((l.map Prod.snd).filter fun s => s.IsLeader).length := by
    rw [← List.countP_eq_length_filter, ← List.countP_eq_length_filter, List.countP_map]
    rfl
  rw [h1, h2, h3]
  tauto

/-- The spec's first example: member 0 answers as leader, members 1 and 2
redirect to member 0's hostname; the check succeeds. -/
theorem checkResults_eq_none_iff_witness :
    exampleClients.length = exampleHealthy.length ∧
    checkResults exampleHostnameOf exampleClients exampleHealthy = none ∧
    (checkResults exampleHostnameOf exampleClients exampleHealthy = none ↔
      (∀ s ∈ exampleHealthy, s.IsResponding = true) ∧
      (exampleHealthy.filter fun s => s.IsLeader).length = 1 ∧
      shareOneHostname exampleHostnameOf exampleHealthy) :=
  ⟨rfl, by decide,
    checkResults_eq_none_iff exampleHostnameOf exampleClients exampleHealthy rfl⟩

/-- The loop from an index `i > 0` on, when the first member that does not
respond comes after the members `pre`: the loop reaches it exactly when the
leader endpoints from `prev` through `pre` are a chain of same endpoints. -/
theorem checkLoop_some_not_responding (hostnameOf : HostnameOf)
    (pre : List (Connection × agentStatus)) (c : Connection) (s : agentStatus)
    (post : List (Connection × agentStatus)) (p : agentStatus) (n : Nat)
    (hpre : ∀ x ∈ pre, x.2.IsResponding = true) (hs : s.IsResponding = false) :
    checkLoop hostnameOf (pre ++ (c, s) :: post) (some p) n =
      if List.Chain (fun x y => IsSameEndpoint hostnameOf x y = true) p.LeaderEndpoint
          (pre.map fun x => x.2.LeaderEndpoint)
      then some (errNotResponding c) else some errLeaderMismatch := by
  induction pre generalizing p n with
  | nil => simp [checkLoop, hs]
  | cons x pre ih =>
    obtain ⟨d, st⟩ := x
    have hr : st.IsResponding = true := hpre (d, st) (List.mem_cons_self _ _)
    have hpre2 : ∀ x ∈ pre, x.2.IsResponding = true :=
      fun x hx => hpre x (List.mem_cons_of_mem _ hx)
    rw [List.cons_append]
    unfold checkLoop
    cases hsame : IsSameEndpoint hostnameOf p.LeaderEndpoint st.LeaderEndpoint with
    | false => simp [hr, hsame, List.chain_cons]
    | true => simp [hr, hsame, List.chain_cons, ih _ _ hpre2]

/-- The whole loop, when the first member that does not respond comes after
the members `pre`. -/
theorem checkLoop_none_not_responding (hostnameOf : HostnameOf)
    (pre : List (Connection × agentStatus)) (c : Connection) (s : agentStatus)
    (post : List (Connection × agentStatus))
    (hpre : ∀ x ∈ pre, x.2.IsResponding = true) (hs : s.IsResponding = false) :
    checkLoop hostnameOf (pre ++ (c, s) :: post) none 0 =
      if List.Chain' (fun x y => IsSameEndpoint hostnameOf x y = true)
          (pre.map fun x => x.2.LeaderEndpoint)
      then some (errNotResponding c) else some errLeaderMismatch := by
  cases pre with
  | nil => simp [checkLoop, hs]
  | cons x pre =>
    obtain ⟨d, st⟩ := x
    have hr : st.IsResponding = true := hpre (d, st) (List.mem_cons_self _ _)
    have hpre2 : ∀ x ∈ pre, x.2.IsResponding = true :=
      fun x hx => hpre x (List.mem_cons_of_mem _ hx)
    rw [List.cons_append]
    unfold checkLoop
    simp [hr, List.Chain', checkLoop_some_not_responding hostnameOf pre c s post _ _ hpre2 hs]

/-- C2, as the code has it: when the member at index `pre.length` (client
`c`, status `s`) is the first one that does not respond, the check fails;
the error is "Agent <endpoints of c> is not responding" whatever the
is-leader flags and whatever the later members report, provided every two
adjacent members before it report the same leader endpoint; if two adjacent
earlier members report different leader endpoints, the error is "Not all
agents report the same leader endpoint". -/
theorem checkResults_not_responding (hostnameOf : HostnameOf)
    (cpre cpost : List Connection) (c : Connection)
    (pre post : List agentStatus) (s : agentStatus)
    (hlen : cpre.length = pre.length)
    (hpre : ∀ x ∈ pre, x.IsResponding = true) (hs : s.IsResponding = false) :
    (List.Chain' (fun x y => IsSameEndpoint hostnameOf x y = true)
        (pre.map fun x => x.LeaderEndpoint) →
      checkResults hostnameOf (cpre ++ c :: cpost) (pre ++ s :: post) =
        some (errNotResponding c)) ∧
    (¬ List.Chain' (fun x y => IsSameEndpoint hostnameOf x y = true)
        (pre.map fun x => x.LeaderEndpoint) →
      checkResults hostnameOf (cpre ++ c :: cpost) (pre ++ s :: post) =
        some errLeaderMismatch) := by
  have hzip : (cpre ++ c :: cpost).zip (pre ++ s :: post) =
      cpre.zip pre ++ (c, s) :: cpost.zip post := by
    rw [List.zip_append hlen]
    rfl
  have hmap := map_snd_zip_of_length_eq cpre pre hlen
  have hresp : ∀ x ∈ cpre.zip pre, x.2.IsResponding = true := by
    intro x hx
    apply hpre
    rw [← hmap]
    exact List.mem_map_of_mem Prod.snd hx
  have hle : ((cpre.zip pre).map fun x => x.2.LeaderEndpoint) =
      pre.map fun x => x.LeaderEndpoint := by
    conv_rhs => rw [← hmap]
    simp
  unfold checkResults
  rw [hzip, checkLoop_none_not_responding hostnameOf _ c s _ hresp hs, hle]
  constructor
  · intro h
    rw [if_pos h]
  · intro h
    rw [if_neg h]

/-- Members 0 and 1 of a local cluster respond and name one host, member 2
does not respond: the error names member 2. -/
theorem checkResults_not_responding_witness :
    checkResults exampleHostnameOf
      ([⟨["tcp://localhost:4001"]⟩, ⟨["tcp://localhost:4006"]⟩] ++
        ⟨["tcp://localhost:4011"]⟩ :: [])
      ([⟨true, "tcp://localhost:4001", true⟩, ⟨false, "tcp://localhost:4001", true⟩] ++
        ⟨false, "", false⟩ :: []) =
      some "Agent tcp://localhost:4011 is not responding" :=
  (checkResults_not_responding exampleHostnameOf
    [⟨["tcp://localhost:4001"]⟩, ⟨["tcp://localhost:4006"]⟩] [] ⟨["tcp://localhost:4011"]⟩
    [⟨true, "tcp://localhost:4001", true⟩, ⟨false, "tcp://localhost:4001", true⟩] []
    ⟨false, "", false⟩ rfl (by decide) rfl).1 (List.chain'_pair.mpr (by decide))

/-- C2 as stated fails: in `exampleSplitThenDown` exactly one member, the
last, does not respond, yet the error is not the one naming it: members 0
and 1 report leaders on different hosts and the loop returns at member 1. -/
theorem checkResults_not_responding_counterexample :
    exampleClients.length = exampleSplitThenDown.length ∧
    (exampleSplitThenDown.filter fun s => !s.IsResponding) =
      [⟨false, "", false⟩] ∧
    checkResults exampleHostnameOf exampleClients exampleSplitThenDown =
      some "Not all agents report the same leader endpoint" ∧
    checkResults exampleHostnameOf exampleClients exampleSplitThenDown ≠
      some (errNotResponding ⟨["tcp://c:8531"]⟩) ∧
    AreAgentsHealthy exampleHostnameOf exampleClients exampleSplitReplies =
      some "Not all agents report the same leader endpoint" ∧
    errNotResponding ⟨["tcp://c:8531"]⟩ = "Agent tcp://c:8531 is not responding" := by
  decide

/-- C3, as the code has it: three members that all answer as leader, each
recording its own endpoint, make the check fail; the error is "Unexpected
number of agency leaders: 3" when members 0 and 1 and members 1 and 2 have
the same endpoint (one host), and "Not all agents report the same leader
endpoint" otherwise. -/
theorem AreAgentsHealthy_three_leaders (hostnameOf : HostnameOf) (c0 c1 c2 : Connection) :
    AreAgentsHealthy hostnameOf [c0, c1, c2] (fun _ => .validRead) =
      some (if IsSameEndpoint hostnameOf (joinEndpoints c0.Endpoints)
                (joinEndpoints c1.Endpoints) &&
              IsSameEndpoint hostnameOf (joinEndpoints c1.Endpoints)
                (joinEndpoints c2.Endpoints)
            then "Unexpected number of agency leaders: 3"
            else "Not all agents report the same leader endpoint") := by
  have h3 : errLeaderCount 3 = "Unexpected number of agency leaders: 3" := by decide
  cases h01 : IsSameEndpoint hostnameOf (joinEndpoints c0.Endpoints)
      (joinEndpoints c1.Endpoints) <;>
    cases h12 : IsSameEndpoint hostnameOf (joinEndpoints c1.Endpoints)
      (joinEndpoints c2.Endpoints) <;>
    simp [AreAgentsHealthy, checkResults, checkLoop, probe, List.enum, List.enumFrom,
      h01, h12, h3, errLeaderMismatch]

/-- C3 as stated fails: three members on three hosts that all answer as
leader get the leader-disagreement error, not the leader-count error. -/
theorem AreAgentsHealthy_three_leaders_counterexample :
    AreAgentsHealthy exampleHostnameOf exampleClients (fun _ => .validRead) =
      some "Not all agents report the same leader endpoint" ∧
    AreAgentsHealthy exampleHostnameOf exampleClients (fun _ => .validRead) ≠
      some "Unexpected number of agency leaders: 3" := by
  decide

/-- C4: `IsSameEndpoint a b` is true exactly when `a` and `b` are literally
identical, or both parse and their hostnames are equal (nothing else of the
parsed URLs is looked at); two parseable endpoints with different hostnames
are never equal, and an unparseable endpoint is equal only to itself. -/
theorem IsSameEndpoint_characterisation (hostnameOf : HostnameOf) (a b : String) :
    (IsSameEndpoint hostnameOf a b = true ↔
      a = b ∨ ∃ h, hostnameOf a = some h ∧ hostnameOf b = some h) ∧
    (∀ ha hb, hostnameOf a = some ha → hostnameOf b = some hb → ha ≠ hb →
      IsSameEndpoint hostnameOf a b = false) ∧
    (hostnameOf a = none ∨ hostnameOf b = none →
      (IsSameEndpoint hostnameOf a b = true ↔ a = b)) := by
  refine ⟨isSameEndpoint_iff hostnameOf a b, ?_, ?_⟩
  · intro ha hb hha hhb hne
    rw [← Bool.not_eq_true, isSameEndpoint_iff]
    rintro (rfl | ⟨h, h1, h2⟩)
    · rw [hha] at hhb
      exact hne (Option.some.inj hhb)
    · rw [hha] at h1
      rw [hhb] at h2
      exact hne ((Option.some.inj h1).trans (Option.some.inj h2).symm)
  · intro hnone
    rw [isSameEndpoint_iff]
    constructor
    · rintro (h | ⟨h, h1, h2⟩)
      · exact h
      · rcases hnone with hn | hn
        · rw [hn] at h1
          exact absurd h1 (by simp)
        · rw [hn] at h2
          exact absurd h2 (by simp)
    · exact Or.inl

/-- Same host with another scheme and port: the same endpoint; another host:
not the same; an unparseable endpoint: the same as itself only. -/
theorem IsSameEndpoint_examples :
    IsSameEndpoint exampleHostnameOf "tcp://a:8531" "tcp://a:8531" = true ∧
    IsSameEndpoint exampleHostnameOf "tcp://a:8531" "http://a:8531" = true ∧
    IsSameEndpoint exampleHostnameOf "tcp://a:8541" "http://a:8531" = true ∧
    IsSameEndpoint exampleHostnameOf "tcp://a:8531" "tcp://b:8531" = false ∧
    IsSameEndpoint exampleHostnameOf "127.0.0.1:8531" "127.0.0.1:8531" = true ∧
    IsSameEndpoint exampleHostnameOf "127.0.0.1:8531" "tcp://a:8531" = false := by
  decide

/-! ## The supervision loop runArangod -/

/-- One pass of the loop, then the rest of the fuel. -/
theorem runArangod_succ (attempts : Nat → Attempt) (n : Nat) (st : LoopState) :
    runArangod attempts (n + 1) st =
      match runArangodStep (attempts st.restart) st with
      | (st1, some e) => (st1, some e)
      | (st1, none) => runArangod attempts n st1 := rfl

/-- The first `n` passes and then `m` more: if the loop is still going after
`n` passes, it goes on from the state reached. -/
theorem runArangod_add (attempts : Nat → Attempt) (n m : Nat) (st : LoopState)
    (h : (runArangod attempts n st).2 = none) :
    runArangod attempts (n + m) st = runArangod attempts m (runArangod attempts n st).1 := by
  induction n generalizing st with
  | zero => simp [runArangod]
  | succ n ih =>
    rw [Nat.add_right_comm]
    simp only [runArangod_succ] at h ⊢
    rcases hs : runArangodStep (attempts st.restart) st with ⟨st1, _ | e⟩
    · rw [hs] at h
      simp only at h ⊢
      exact ih st1 h
    · rw [hs] at h
      simp at h

/-- Once the loop has been left, more fuel changes nothing. -/
theorem runArangod_exit_mono (attempts : Nat → Attempt) (n m : Nat) (st st1 : LoopState)
    (e : Exit) (h : runArangod attempts n st = (st1, some e)) :
    runArangod attempts (n + m) st = (st1, some e) := by
  induction n generalizing st with
  | zero => simp [runArangod] at h
  | succ n ih =>
    rw [Nat.add_right_comm]
    simp only [runArangod_succ] at h ⊢
    rcases hs : runArangodStep (attempts st.restart) st with ⟨st2, _ | e2⟩
    · rw [hs] at h
      simp only at h ⊢
      exact ih st2 h
    · rw [hs] at h
      simpa using h

/-- A pass in which the process starts, exits before 30 seconds of uptime and
no stop is seen, below the failure cap: the counter goes up by one and the
loop restarts. -/
theorem runArangodStep_quick_continue (a : Attempt) (st : LoopState) (p : Process)
    (hstart : a.start = .ok p) (hup : a.uptime < Second * 30) (hstop : a.stopSet = false)
    (hst : st.stop = false) (hcap : st.recentFailures + 1 < maxRecentFailures) :
    runArangodStep a st =
      ({ restart := st.restart + 1, recentFailures := st.recentFailures + 1, stop := false,
         processVar := some p, started := st.restart :: st.started }, none) := by
  have hcap2 : ¬ (st.recentFailures + 1 ≥ maxRecentFailures) := by omega
  simp [runArangodStep, hstart, hup, hstop, hst, hcap2]

/-- A pass in which the process starts, exits before 30 seconds of uptime and
no stop is seen, reaching the failure cap: the loop gives up and sets the
stop flag. -/
theorem runArangodStep_quick_giveUp (a : Attempt) (st : LoopState) (p : Process)
    (hstart : a.start = .ok p) (hup : a.uptime < Second * 30) (hstop : a.stopSet = false)
    (hst : st.stop = false) (hcap : maxRecentFailures ≤ st.recentFailures + 1) :
    runArangodStep a st =
      ({ restart := st.restart, recentFailures := st.recentFailures + 1, stop := true,
         processVar := some p, started := st.restart :: st.started }, some .gaveUp) := by
  have hcap2 : st.recentFailures + 1 ≥ maxRecentFailures := hcap
  simp [runArangodStep, hstart, hup, hstop, hst, hcap2]

/-- A pass in which the process starts, stays up for at least 30 seconds and
no stop is seen: the counter is reset and the loop restarts. -/
theorem runArangodStep_long (a : Attempt) (st : LoopState) (p : Process)
    (hstart : a.start = .ok p) (hup : Second * 30 ≤ a.uptime) (hstop : a.stopSet = false)
    (hst : st.stop = false) :
    runArangodStep a st =
      ({ restart := st.restart + 1, recentFailures := 0, stop := false,
         processVar := some p, started := st.restart :: st.started }, none) := by
  have hup2 : ¬ a.uptime < Second * 30 := not_lt.mpr hup
  simp [runArangodStep, hstart, hup2, hstop, hst, maxRecentFailures]

/-- While the run of quick exits stays below the cap, the loop keeps going:
after `n` passes it has restarted `n` times and counted `n` more failures. -/
theorem runArangod_quick_below_cap (attempts : Nat → Attempt)
    (hstart : ∀ k, ∃ p, (attempts k).start = .ok p)
    (hup : ∀ k, (attempts k).uptime < Second * 30)
    (hstop : ∀ k, (attempts k).stopSet = false)
    (n : Nat) (st : LoopState) (hst : st.stop = false)
    (hcap : st.recentFailures + n < maxRecentFailures) :
    (runArangod attempts n st).2 = none ∧
    (runArangod attempts n st).1.restart = st.restart + n ∧
    (runArangod attempts n st).1.recentFailures = st.recentFailures + n ∧
    (runArangod attempts n st).1.stop = false ∧
    (runArangod attempts n st).1.started.length = st.started.length + n := by
  induction n generalizing st with
  | zero => simp [runArangod, hst]
  | succ n ih =>
    obtain ⟨p, hp⟩ := hstart st.restart
    rw [runArangod_succ,
      runArangodStep_quick_continue _ st p hp (hup _) (hstop _) hst (by omega)]
    simp only
    have := ih ⟨st.restart + 1, st.recentFailures + 1, false, some p, st.restart :: st.started⟩
      rfl (by simp only; omega)
    simp only [List.length_cons] at this
    refine ⟨this.1, ?_, ?_, this.2.2.2.1, ?_⟩
    · rw [this.2.1]; omega
    · rw [this.2.2.1]; omega
    · rw [this.2.2.2.2]; omega

/-- A run of quick exits from a fresh loop: nothing happens to the stop flag
during the first 99 exits, and the 100th exit, reached with restart
generation 99, makes the loop give up. -/
theorem runArangod_quick_streak (attempts : Nat → Attempt)
    (hstart : ∀ k, ∃ p, (attempts k).start = .ok p)
    (hup : ∀ k, (attempts k).uptime < Second * 30)
    (hstop : ∀ k, (attempts k).stopSet = false)
    (processVar : Option Process) :
    (∀ fuel, fuel < 100 →
      (runArangod attempts fuel (LoopState.init false processVar)).2 = none ∧
      (runArangod attempts fuel (LoopState.init false processVar)).1.stop = false ∧
      (runArangod attempts fuel (LoopState.init false processVar)).1.restart = fuel) ∧
    (∀ fuel, 100 ≤ fuel →
      (runArangod attempts fuel (LoopState.init false processVar)).2 = some .gaveUp ∧
      (runArangod attempts fuel (LoopState.init false processVar)).1.stop = true ∧
      (runArangod attempts fuel (LoopState.init false processVar)).1.restart = 99 ∧
      (runArangod attempts fuel (LoopState.init false processVar)).1.recentFailures = 100 ∧
      (runArangod attempts fuel (LoopState.init false processVar)).1.started.length = 100) := by
  constructor
  · intro fuel hfuel
    have h := runArangod_quick_below_cap attempts hstart hup hstop fuel
      (LoopState.init false processVar) rfl (by simp [LoopState.init, maxRecentFailures]; omega)
    refine ⟨h.1, h.2.2.2.1, ?_⟩
    rw [h.2.1]
    simp [LoopState.init]
  · intro fuel hfuel
    obtain ⟨k, rfl⟩ : ∃ k, fuel = 99 + (1 + k) := ⟨fuel - 100, by omega⟩
    have h := runArangod_quick_below_cap attempts hstart hup hstop 99
      (LoopState.init false processVar) rfl (by simp [LoopState.init, maxRecentFailures])
    rw [runArangod_add attempts 99 (1 + k) _ h.1]
    generalize (runArangod attempts 99 (LoopState.init false processVar)).1 = st at h
    obtain ⟨_, hre, hrf, hst, hlen⟩ := h
    simp only [LoopState.init, List.length_nil, Nat.zero_add] at hre hrf hlen
    obtain ⟨p, hp⟩ := hstart st.restart
    have hone : runArangod attempts 1 st =
        (⟨st.restart, st.recentFailures + 1, true, some p, st.restart :: st.started⟩,
          some .gaveUp) := by
      rw [runArangod_succ, runArangodStep_quick_giveUp _ st p hp (hup _) (hstop _) hst
        (by rw [hrf]; simp [maxRecentFailures])]
    rw [runArangod_exit_mono attempts 1 k st _ _ hone]
    simp [hre, hrf, hlen]

/-- C5, as the code has it: with no start error and no stop from outside, a
process that exits after 1 second of uptime on every run is started exactly
100 times, the first start and 99 restarts: the loop is still going, with
the stop flag unset, after each of the first 99 exits, and at the 100th exit
(restart generation 99, counter 100) it gives up the role for good and sets
the service-wide stop flag. -/
theorem runArangod_one_second_uptime (attempts : Nat → Attempt)
    (hstart : ∀ k, ∃ p, (attempts k).start = .ok p)
    (hup : ∀ k, (attempts k).uptime = Second)
    (hstop : ∀ k, (attempts k).stopSet = false)
    (processVar : Option Process) :
    (∀ fuel, fuel < 100 →
      (runArangod attempts fuel (LoopState.init false processVar)).2 = none ∧
      (runArangod attempts fuel (LoopState.init false processVar)).1.stop = false ∧
      (runArangod attempts fuel (LoopState.init false processVar)).1.restart = fuel) ∧
    (∀ fuel, 100 ≤ fuel →
      (runArangod attempts fuel (LoopState.init false processVar)).2 = some .gaveUp ∧
      (runArangod attempts fuel (LoopState.init false processVar)).1.stop = true ∧
      (runArangod attempts fuel (LoopState.init false processVar)).1.restart = 99 ∧
      (runArangod attempts fuel (LoopState.init false processVar)).1.recentFailures = 100 ∧
      (runArangod attempts fuel (LoopState.init false processVar)).1.started.length = 100) :=
  runArangod_quick_streak attempts hstart
    (fun k => by rw [hup k]; decide) hstop processVar

/-- The one-second process of the spec's example, given more fuel than it
needs. -/
theorem runArangod_one_second_uptime_witness :
    (runArangod exampleQuickAttempts 1000 (LoopState.init false none)).2 = some .gaveUp ∧
    (runArangod exampleQuickAttempts 1000 (LoopState.init false none)).1.stop = true ∧
    (runArangod exampleQuickAttempts 1000 (LoopState.init false none)).1.restart = 99 ∧
    (runArangod exampleQuickAttempts 1000 (LoopState.init false none)).1.recentFailures = 100 ∧
    (runArangod exampleQuickAttempts 1000 (LoopState.init false none)).1.started.length = 100 :=
  (runArangod_one_second_uptime exampleQuickAttempts (fun k => ⟨⟨k⟩, rfl⟩) (fun _ => rfl)
    (fun _ => rfl) none).2 1000 (by decide)

/-- C5 as stated fails: the one-second process is not restarted 100 times.
When the loop gives up, `restart` is 99 and `startArangod` has been called
100 times; the 100th restart never happens. -/
theorem runArangod_one_second_uptime_counterexample :
    (runArangod exampleQuickAttempts 100 (LoopState.init false none)).2 = some .gaveUp ∧
    (runArangod exampleQuickAttempts 100 (LoopState.init false none)).1.stop = true ∧
    (runArangod exampleQuickAttempts 100 (LoopState.init false none)).1.restart = 99 ∧
    (runArangod exampleQuickAttempts 100 (LoopState.init false none)).1.restart ≠ 100 ∧
    (runArangod exampleQuickAttempts 100 (LoopState.init false none)).1.started =
      (List.range 100).reverse := by
  set_option maxRecDepth 100000 in decide

/-- C6: with no start error and no stop from outside, if every run has an
uptime of at least 30 seconds, then after every number `n` of exits the
consecutive-failure counter is 0, the loop has not been left, the stop flag
is unset, and the process has been restarted `n` times. -/
theorem runArangod_long_uptimes (attempts : Nat → Attempt)
    (hstart : ∀ k, ∃ p, (attempts k).start = .ok p)
    (hup : ∀ k, Second * 30 ≤ (attempts k).uptime)
    (hstop : ∀ k, (attempts k).stopSet = false)
    (processVar : Option Process) (n : Nat) :
    (runArangod attempts n (LoopState.init false processVar)).2 = none ∧
    (runArangod attempts n (LoopState.init false processVar)).1.recentFailures = 0 ∧
    (runArangod attempts n (LoopState.init false processVar)).1.stop = false ∧
    (runArangod attempts n (LoopState.init false processVar)).1.restart = n ∧
    (runArangod attempts n (LoopState.init false processVar)).1.started.length = n := by
  have key : ∀ (n : Nat) (st : LoopState), st.stop = false → st.recentFailures = 0 →
      (runArangod attempts n st).2 = none ∧
      (runArangod attempts n st).1.recentFailures = 0 ∧
      (runArangod attempts n st).1.stop = false ∧
      (runArangod attempts n st).1.restart = st.restart + n ∧
      (runArangod attempts n st).1.started.length = st.started.length + n := by
    intro n
    induction n with
    | zero =>
      intro st hst hrf
      simp [runArangod, hst, hrf]
    | succ n ih =>
      intro st hst hrf
      obtain ⟨p, hp⟩ := hstart st.restart
      rw [runArangod_succ, runArangodStep_long _ st p hp (hup _) (hstop _) hst]
      simp only
      have h := ih ⟨st.restart + 1, 0, false, some p, st.restart :: st.started⟩ rfl rfl
      simp only [List.length_cons] at h
      refine ⟨h.1, h.2.1, h.2.2.1, ?_, ?_⟩
      · rw [h.2.2.2.1]; omega
      · rw [h.2.2.2.2]; omega
  have h := key n (LoopState.init false processVar) rfl rfl
  simpa [LoopState.init] using h

/-- The 60-second process of the spec's example after 7 exits. -/
theorem runArangod_long_uptimes_witness :
    (runArangod exampleLongAttempts 7 (LoopState.init false none)).2 = none ∧
    (runArangod exampleLongAttempts 7 (LoopState.init false none)).1.recentFailures = 0 ∧
    (runArangod exampleLongAttempts 7 (LoopState.init false none)).1.stop = false ∧
    (runArangod exampleLongAttempts 7 (LoopState.init false none)).1.restart = 7 ∧
    (runArangod exampleLongAttempts 7 (LoopState.init false none)).1.started.length = 7 :=
  runArangod_long_uptimes exampleLongAttempts (fun k => ⟨⟨k⟩, rfl⟩)
    (fun _ => show Second * 30 ≤ Second * 60 by decide) (fun _ => rfl) none 7

/-! ## Ports -/

/-- The `--agency.endpoint` arguments are the agent endpoints of the peers
with `HasAgent` other than the own one, in peer order. -/
theorem agencyEndpoints_eq (s : Service) (ps : List Peer) :
    agencyEndpoints s ps =
      (ps.filter fun p => p.HasAgent && p.ID != s.ID).flatMap
        fun p => ["--agency.endpoint", agentEndpoint s p] := by
  induction ps with
  | nil => rfl
  | cons p ps ih =>
    unfold agencyEndpoints
    by_cases h : (p.HasAgent && p.ID != s.ID) = true
    · rw [if_pos h, ih]
      simp [List.filter_cons, h]
    · rw [if_neg h, ih]
      simp [List.filter_cons, h]

/-- The `--cluster.agency-endpoint` arguments, when the loop does not panic,
are the agent endpoints of the peers at the indices visited. -/
theorem clusterAgencyEndpoints_eq (s : Service) (idxs : List Nat) (l : List String)
    (h : clusterAgencyEndpoints s idxs = .ok l) :
    ∃ ps : List Peer, idxs.map (fun i => s.myPeers.Peers[i]?) = ps.map some ∧
      l = ps.flatMap fun p => ["--cluster.agency-endpoint", agentEndpoint s p] := by
  induction idxs generalizing l with
  | nil =>
    simp only [clusterAgencyEndpoints, Except.ok.injEq] at h
    exact ⟨[], rfl, by rw [← h]; rfl⟩
  | cons i is ih =>
    unfold clusterAgencyEndpoints at h
    cases hp : s.myPeers.Peers[i]? with
    | none => simp [hp] at h
    | some p =>
      cases hrest : clusterAgencyEndpoints s is with
      | error e => simp [hp, hrest] at h
      | ok rest =>
        simp only [hp, hrest, Except.ok.injEq] at h
        obtain ⟨ps, hps, hl⟩ := ih rest hrest
        refine ⟨p :: ps, ?_, ?_⟩
        · simp [hp, hps]
        · rw [← h, hl]
          rfl

/-- An integer in the range of `int` is the `int` it wraps around to. -/
theorem goInt_of_isGoInt (x : Int) (h : IsGoInt x) : goInt x = x := by
  unfold goInt
  obtain ⟨h1, h2⟩ := h
  omega

/-- Wrapping around lands in the range of `int`. -/
theorem isGoInt_goInt (x : Int) : IsGoInt (goInt x) := by
  unfold goInt
  constructor <;> omega

/-- Two additions on `int` wrap around to the same value as the mathematical
sum does. -/
theorem goAdd_goAdd (a b c : Int) : goAdd (goAdd a b) c = goInt (a + b + c) := by
  unfold goAdd goInt
  omega

/-- Adding the same `int`s to two different `int`s gives different sums, also
when the sums overflow. -/
theorem goAdd_goAdd_left_inj (m c x y : Int) (hx : IsGoInt x) (hy : IsGoInt y)
    (h : goAdd (goAdd m x) c = goAdd (goAdd m y) c) : x = y := by
  unfold goAdd goInt at h
  obtain ⟨hx1, hx2⟩ := hx
  obtain ⟨hy1, hy2⟩ := hy
  omega

/-- C7: the port a role is started on is `MasterPort + PortOffset + roleOffset`
of the own peer, computed in Go's `int`, with role offset 1 for the agent, 3
for the data-server and 2 for the coordinator, whatever other roles the peer
runs; it is the mathematical sum whenever that sum is in the range of `int`;
and the agent endpoint `makeBaseArgs` of any starter `t` with the same base
port advertises for that peer, both as `--agency.endpoint` and as
`--cluster.agency-endpoint`, carries the port the peer's agent is started
on. -/
theorem role_ports (s t : Service) (myPeer : Peer)
    (hpeer : s.myPeers.PeerByID s.ID = some myPeer) (hbase : t.MasterPort = s.MasterPort) :
    startRunningPorts s = some
      ((if needsAgent s then
          [("agent", goAdd (goAdd s.MasterPort myPeer.PortOffset) 1)] else []) ++
       (if s.StartDBserver then
          [("dbserver", goAdd (goAdd s.MasterPort myPeer.PortOffset) 3)] else []) ++
       (if s.StartCoordinator then
          [("coordinator", goAdd (goAdd s.MasterPort myPeer.PortOffset) 2)] else [])) ∧
    (∀ roleOffset : Int, IsGoInt (s.MasterPort + myPeer.PortOffset + roleOffset) →
      goAdd (goAdd s.MasterPort myPeer.PortOffset) roleOffset =
        s.MasterPort + myPeer.PortOffset + roleOffset) ∧
    agentEndpoint t myPeer =
      "tcp://" ++ myPeer.Address ++ ":" ++ toString (myPort s myPeer.PortOffset portOffsetAgent) ∧
    myPort s myPeer.PortOffset portOffsetAgent =
      goAdd (goAdd s.MasterPort myPeer.PortOffset) 1 ∧
    agencyEndpoints t t.myPeers.Peers =
      ((t.myPeers.Peers.filter fun p => p.HasAgent && p.ID != t.ID).flatMap
        fun p => ["--agency.endpoint", agentEndpoint t p]) ∧
    (∀ idxs l, clusterAgencyEndpoints t idxs = .ok l →
      ∃ ps : List Peer, idxs.map (fun i => t.myPeers.Peers[i]?) = ps.map some ∧
        l = ps.flatMap fun p => ["--cluster.agency-endpoint", agentEndpoint t p]) := by
  refine ⟨?_, ?_, ?_, rfl, agencyEndpoints_eq t _, clusterAgencyEndpoints_eq t⟩
  · unfold startRunningPorts launchedRoles
    rw [hpeer]
    cases needsAgent s <;> cases s.StartDBserver <;> cases s.StartCoordinator <;>
      simp [myPort, portOffsetAgent, portOffsetDBServer, portOffsetCoordinator]
  · intro roleOffset hrange
    rw [goAdd_goAdd, goInt_of_isGoInt _ hrange]
  · unfold agentEndpoint myPort
    rw [hbase]

/-- The starter `b` of a three-peer cluster on base port 4000: agent on 4006,
data-server on 4008, coordinator on 4007; starter `d` advertises
`tcp://localhost:4006` for it. -/
theorem role_ports_witness :
    startRunningPorts exampleServiceB =
      some [("agent", 4006), ("dbserver", 4008), ("coordinator", 4007)] ∧
    agentEndpoint exampleService ⟨"b", "localhost", 5, true⟩ = "tcp://localhost:4006" :=
  have h := role_ports exampleServiceB exampleService ⟨"b", "localhost", 5, true⟩
    (by decide) rfl
  ⟨h.1.trans (by decide), h.2.2.1.trans (by decide)⟩

/-- With the largest `int` as base port every sum overflows: starter `b`
(port offset 5) starts its agent on the wrapped port, and that is the port
advertised for it; for a peer with port offset 0 the advertised endpoint is
`tcp://localhost:-9223372036854775808`. -/
theorem example_ports_wrap_around :
    startRunningPorts exampleWrapService =
      some [("agent", -9223372036854775803), ("dbserver", -9223372036854775801),
        ("coordinator", -9223372036854775802)] ∧
    agentEndpoint exampleWrapService ⟨"b", "localhost", 5, true⟩ =
      "tcp://localhost:-9223372036854775803" ∧
    agentEndpoint exampleWrapService ⟨"a", "localhost", 0, true⟩ =
      "tcp://localhost:-9223372036854775808" := by
  decide

/-- Wrapping around subtracts a multiple of 2^64. -/
theorem goInt_eq_sub (x : Int) :
    goInt x =
      x - 18446744073709551616 * ((x + 9223372036854775808) / 18446744073709551616) := by
  unfold goInt
  omega

/-- Two integers that wrap around to one `int` differ by a multiple of
2^64. -/
theorem goInt_eq_goInt (x y : Int) (h : goInt x = goInt y) :
    ∃ k : Int, x - y = 18446744073709551616 * k := by
  rw [goInt_eq_sub x, goInt_eq_sub y] at h
  exact ⟨(x + 9223372036854775808) / 18446744073709551616 -
    (y + 9223372036854775808) / 18446744073709551616, by omega⟩

/-- Two `int`s that are different multiples of 5, moved by less than 5, do
not differ by a multiple of 2^64: 2^64 - 1 is a multiple of 5, but no two
multiples of 5 in the range of `int` are that far apart. -/
theorem multiples_of_five_apart (a b d k : Int) (hab : a ≠ b)
    (hd1 : -3 ≤ d) (hd2 : d ≤ 3)
    (hp1 : -9223372036854775808 ≤ a * 5) (hp2 : a * 5 < 9223372036854775808)
    (hq1 : -9223372036854775808 ≤ b * 5) (hq2 : b * 5 < 9223372036854775808)
    (hk : a * 5 - b * 5 + d = 18446744073709551616 * k) : False := by
  have hk1 : -1 ≤ k ∧ k ≤ 1 := by
    clear hab
    omega
  obtain ⟨h1, h2⟩ := hk1
  interval_cases k
  · clear hab; omega
  · omega
  · clear hab; omega

/-- The port slots `i` and `j` (0 to 3) of two peers whose port offsets are
different multiples of 5 are different ports, also where the sums
overflow. -/
theorem goInt_slot_ne (m po qo a b i j : Int) (hp : po = a * 5) (hq : qo = b * 5)
    (hne : po ≠ qo) (hpr : IsGoInt po) (hqr : IsGoInt qo)
    (hi1 : 0 ≤ i) (hi2 : i ≤ 3) (hj1 : 0 ≤ j) (hj2 : j ≤ 3) :
    goInt (m + po + i) ≠ goInt (m + qo + j) := by
  intro h
  obtain ⟨k, hk⟩ := goInt_eq_goInt _ _ h
  subst hp hq
  have hab : a ≠ b := by
    rintro rfl
    exact hne rfl
  exact multiples_of_five_apart a b (i - j) k hab (by omega) (by omega) hpr.1 hpr.2 hqr.1
    hqr.2 (by rw [← hk]; ring)

/-- Two different port slots of one peer are different ports. -/
theorem goInt_slot_ne_self (x i j : Int) (hij : i ≠ j)
    (hi1 : 0 ≤ i) (hi2 : i ≤ 3) (hj1 : 0 ≤ j) (hj2 : j ≤ 3) :
    goInt (x + i) ≠ goInt (x + j) := by
  intro h
  obtain ⟨k, hk⟩ := goInt_eq_goInt _ _ h
  have hk2 : i - j = 18446744073709551616 * k := by rw [← hk]; ring
  omega

/-- The ports of a peer are its four port slots. -/
theorem peerPorts_eq (s : Service) (p : Peer) :
    peerPorts s p =
      [ goInt (s.MasterPort + p.PortOffset + 0), goInt (s.MasterPort + p.PortOffset + 1),
        goInt (s.MasterPort + p.PortOffset + 2), goInt (s.MasterPort + p.PortOffset + 3) ] := by
  simp only [peerPorts, controlPort, myPort, goAdd_goAdd, portOffsetAgent,
    portOffsetCoordinator, portOffsetDBServer]
  simp [goAdd]

/-- C8: for every base port and every two peers whose port offsets are
distinct integer multiples of `portOffsetIncrement`, no port of the one peer
is a port of the other, and the four ports of one peer are pairwise
distinct; the ports are computed in Go's `int`, and this holds also where
the sums overflow. -/
theorem peerPorts_disjoint (s : Service) (p q : Peer) (a b : Int)
    (hp : p.PortOffset = a * portOffsetIncrement)
    (hq : q.PortOffset = b * portOffsetIncrement)
    (hpr : IsGoInt p.PortOffset) (hqr : IsGoInt q.PortOffset)
    (hne : p.PortOffset ≠ q.PortOffset) :
    (∀ x ∈ peerPorts s p, x ∉ peerPorts s q) ∧ (peerPorts s p).Nodup := by
  simp only [portOffsetIncrement] at hp hq
  have hslot : ∀ i j : Int, 0 ≤ i → i ≤ 3 → 0 ≤ j → j ≤ 3 →
      goInt (s.MasterPort + p.PortOffset + i) ≠ goInt (s.MasterPort + q.PortOffset + j) :=
    fun i j hi1 hi2 hj1 hj2 =>
      goInt_slot_ne s.MasterPort p.PortOffset q.PortOffset a b i j hp hq hne hpr hqr
        hi1 hi2 hj1 hj2
  have hself : ∀ i j : Int, i ≠ j → 0 ≤ i → i ≤ 3 → 0 ≤ j → j ≤ 3 →
      goInt (s.MasterPort + p.PortOffset + i) ≠ goInt (s.MasterPort + p.PortOffset + j) :=
    fun i j hij hi1 hi2 hj1 hj2 =>
      goInt_slot_ne_self (s.MasterPort + p.PortOffset) i j hij hi1 hi2 hj1 hj2
  rw [peerPorts_eq, peerPorts_eq]
  constructor
  · intro x hx hx2
    simp only [List.mem_cons, List.mem_singleton, List.not_mem_nil, or_false] at hx hx2
    rcases hx with rfl | rfl | rfl | rfl <;> rcases hx2 with h | h | h | h <;>
      exact hslot _ _ (by decide) (by decide) (by decide) (by decide) h
  · simp only [List.nodup_cons, List.mem_cons, List.mem_singleton, List.not_mem_nil,
      or_false, List.nodup_nil, and_true, not_or]
    refine ⟨⟨?_, ?_, ?_⟩, ⟨?_, ?_⟩, ?_, not_false⟩ <;>
      exact hself _ _ (by decide) (by decide) (by decide) (by decide) (by decide)

/-- Peers `b` (offset 5) and `c` (offset 10): on base port 4000, and on the
largest `int` as base port, where all eight sums overflow. -/
theorem peerPorts_disjoint_witness :
    peerPorts exampleService ⟨"b", "localhost", 5, true⟩ = [4005, 4006, 4007, 4008] ∧
    peerPorts exampleService ⟨"c", "localhost", 10, true⟩ = [4010, 4011, 4012, 4013] ∧
    ((∀ x ∈ peerPorts exampleService ⟨"b", "localhost", 5, true⟩,
      x ∉ peerPorts exampleService ⟨"c", "localhost", 10, true⟩) ∧
    (peerPorts exampleService ⟨"b", "localhost", 5, true⟩).Nodup) ∧
    peerPorts exampleWrapService ⟨"b", "localhost", 5, true⟩ =
      [-9223372036854775804, -9223372036854775803, -9223372036854775802,
        -9223372036854775801] ∧
    ((∀ x ∈ peerPorts exampleWrapService ⟨"b", "localhost", 5, true⟩,
      x ∉ peerPorts exampleWrapService ⟨"c", "localhost", 10, true⟩) ∧
    (peerPorts exampleWrapService ⟨"b", "localhost", 5, true⟩).Nodup) :=
  ⟨by decide, by decide,
    peerPorts_disjoint exampleService ⟨"b", "localhost", 5, true⟩ ⟨"c", "localhost", 10, true⟩
      1 2 (by decide) (by decide) (by decide) (by decide) (by decide),
    by decide,
    peerPorts_disjoint exampleWrapService ⟨"b", "localhost", 5, true⟩
      ⟨"c", "localhost", 10, true⟩ 1 2 (by decide) (by decide) (by decide) (by decide)
      (by decide)⟩

/-! ## needsAgent -/

/-- What `needsAgent` computes: the peer found for the own ID exists and is
flagged `HasAgent`. -/
theorem needsAgent_eq_true_iff (s : Service) :
    needsAgent s = true ↔ ∃ p, s.myPeers.PeerByID s.ID = some p ∧ p.HasAgent = true := by
  unfold needsAgent
  cases h : s.myPeers.PeerByID s.ID with
  | none => simp
  | some p => simp

/-- C9, as the code has it: `needsAgent` returns true if and only if the peer
`PeerByID` finds for the own ID exists and is flagged `HasAgent`; the agency
size is not looked at.  For a peer set in which at most `AgencySize` peers
are flagged `HasAgent`, that is the same as this instance's peer being among
the first `AgencySize` peers flagged as agency participants. -/
theorem needsAgent_iff_among_first (s : Service)
    (hcap : ((s.myPeers.Peers.filter fun p => p.HasAgent).length : Int) ≤ s.AgencySize) :
    (needsAgent s = true ↔ ∃ p, s.myPeers.PeerByID s.ID = some p ∧ p.HasAgent = true) ∧
    (needsAgent s = true ↔
      ∃ p, s.myPeers.PeerByID s.ID = some p ∧
        p ∈ (s.myPeers.Peers.filter fun p => p.HasAgent).take s.AgencySize.toNat) := by
  refine ⟨needsAgent_eq_true_iff s, ?_⟩
  have hle : (s.myPeers.Peers.filter fun p => p.HasAgent).length ≤ s.AgencySize.toNat := by
    omega
  rw [needsAgent_eq_true_iff, List.take_of_length_le hle]
  constructor
  · rintro ⟨p, hp, hflag⟩
    refine ⟨p, hp, List.mem_filter.mpr ⟨?_, hflag⟩⟩
    exact List.mem_of_find?_eq_some hp
  · rintro ⟨p, hp, hmem⟩
    exact ⟨p, hp, (List.mem_filter.mp hmem).2⟩

/-- The starter `b` of a three-peer cluster with agency size 3. -/
theorem needsAgent_iff_among_first_witness :
    needsAgent exampleServiceB = true ∧
    ∃ p, exampleServiceB.myPeers.PeerByID exampleServiceB.ID = some p ∧
      p ∈ (exampleServiceB.myPeers.Peers.filter fun p => p.HasAgent).take
        exampleServiceB.AgencySize.toNat :=
  ⟨by decide,
    (needsAgent_iff_among_first exampleServiceB (by decide)).2.mp (by decide)⟩

/-- C9 as stated fails: in `exampleService` four peers are flagged `HasAgent`
and the agency size is 3; `needsAgent` is true for the fourth peer `d`, which
is neither among the first three flagged peers nor among the first three
peers. -/
theorem needsAgent_counterexample :
    needsAgent exampleService = true ∧
    exampleService.AgencySize = 3 ∧
    exampleService.myPeers.PeerByID exampleService.ID =
      some ⟨"d", "localhost", 15, true⟩ ∧
    (⟨"d", "localhost", 15, true⟩ : Peer) ∉
      (exampleService.myPeers.Peers.filter fun p => p.HasAgent).take 3 ∧
    (⟨"d", "localhost", 15, true⟩ : Peer) ∉
      (exampleService.myPeers.Peers.take 3).filter fun p => p.HasAgent := by
  decide

/-! ## The configuration file of makeBaseArgs -/

/-- The files after `makeBaseArgs` are the files after its configuration-file
step, and the files before it when that step ends in `log.Fatalf`. -/
theorem makeBaseArgs_fs (env : OSEnv) (s : Service) (fs : FS)
    (myHostDir myContainerDir myAddress myPort mode : String) :
    (makeBaseArgs env s fs myHostDir myContainerDir myAddress myPort mode).fs =
      match writeConfFile env fs (env.Join myHostDir "arangod.conf") myPort mode with
      | .error _ => fs
      | .ok fs1 => fs1 := by
  simp only [makeBaseArgs]
  cases writeConfFile env fs (env.Join myHostDir "arangod.conf") myPort mode with
  | error e => rfl
  | ok fs1 =>
    simp only
    cases baseArgs env s myContainerDir myAddress myPort mode <;> rfl

/-- An existing configuration file makes `makeBaseArgs` leave all files as
they are. -/
theorem makeBaseArgs_fs_of_exists (env : OSEnv) (s : Service) (fs : FS)
    (myHostDir myContainerDir myAddress myPort mode content : String)
    (hex : fs (env.Join myHostDir "arangod.conf") = some content) :
    (makeBaseArgs env s fs myHostDir myContainerDir myAddress myPort mode).fs = fs := by
  rw [makeBaseArgs_fs]
  simp [writeConfFile, hex]

/-- A second call of `makeBaseArgs` for the same instance directory, with
whatever service, container directory, address, port and mode, leaves the
files as the first call left them. -/
theorem makeBaseArgs_fs_twice (env : OSEnv) (s s2 : Service) (fs : FS)
    (myHostDir myContainerDir myAddress myPort mode : String)
    (myContainerDir2 myAddress2 myPort2 mode2 : String) :
    (makeBaseArgs env s2
        (makeBaseArgs env s fs myHostDir myContainerDir myAddress myPort mode).fs
        myHostDir myContainerDir2 myAddress2 myPort2 mode2).fs =
      (makeBaseArgs env s fs myHostDir myContainerDir myAddress myPort mode).fs := by
  rw [makeBaseArgs_fs env s fs]
  cases hfile : fs (env.Join myHostDir "arangod.conf") with
  | some content =>
    simp only [writeConfFile, hfile]
    exact makeBaseArgs_fs_of_exists env s2 fs myHostDir _ _ _ _ content hfile
  | none =>
    cases hcreate : env.CreateFails (env.Join myHostDir "arangod.conf") with
    | true =>
      simp only [writeConfFile, hfile, hcreate, if_true]
      rw [makeBaseArgs_fs]
      simp [writeConfFile, hfile, hcreate]
    | false =>
      simp only [writeConfFile, hfile, hcreate]
      exact makeBaseArgs_fs_of_exists env s2 _ myHostDir _ _ _ _
        (confFileContent myPort mode) (by simp [FS.write])

/-- C10: when `arangod.conf` already exists in the instance directory,
`makeBaseArgs`, for any mode and port, leaves its content (and every other
file) as it is, and so does a second call; invoking `makeBaseArgs` twice
yields the same files as invoking it once. -/
theorem makeBaseArgs_conf_idempotent (env : OSEnv) (s s2 : Service) (fs : FS)
    (myHostDir myContainerDir myAddress myPort mode : String)
    (myContainerDir2 myAddress2 myPort2 mode2 : String) (content : String)
    (hex : fs (env.Join myHostDir "arangod.conf") = some content) :
    (makeBaseArgs env s fs myHostDir myContainerDir myAddress myPort mode).fs = fs ∧
    (makeBaseArgs env s fs myHostDir myContainerDir myAddress myPort mode).fs
      (env.Join myHostDir "arangod.conf") = some content ∧
    (makeBaseArgs env s2
        (makeBaseArgs env s fs myHostDir myContainerDir myAddress myPort mode).fs
        myHostDir myContainerDir2 myAddress2 myPort2 mode2).fs =
      (makeBaseArgs env s fs myHostDir myContainerDir myAddress myPort mode).fs ∧
    (makeBaseArgs env s2
        (makeBaseArgs env s fs myHostDir myContainerDir myAddress myPort mode).fs
        myHostDir myContainerDir2 myAddress2 myPort2 mode2).fs
      (env.Join myHostDir "arangod.conf") = some content := by
  have h1 := makeBaseArgs_fs_of_exists env s fs myHostDir myContainerDir myAddress myPort mode
    content hex
  have h2 := makeBaseArgs_fs_twice env s s2 fs myHostDir myContainerDir myAddress myPort mode
    myContainerDir2 myAddress2 myPort2 mode2
  refine ⟨h1, ?_, h2, ?_⟩
  · rw [h1, hex]
  · rw [h2, h1, hex]

/-- The agent of starter `d` is started on a host where somebody has edited
its configuration file, first as agent on port 4016 and then once more as
coordinator on port 4017: the edited content stays. -/
theorem makeBaseArgs_conf_idempotent_witness :
    exampleFS (exampleEnv.Join "/data/agent4016" "arangod.conf") =
      some "[server]\nthreads = 2\n" ∧
    (makeBaseArgs exampleEnv exampleService
        (makeBaseArgs exampleEnv exampleService exampleFS "/data/agent4016"
          "/data/agent4016" "localhost" "4016" "agent").fs
        "/data/agent4016" "/data/agent4016" "localhost" "4017" "coordinator").fs
      (exampleEnv.Join "/data/agent4016" "arangod.conf") = some "[server]\nthreads = 2\n" :=
  ⟨by decide,
    (makeBaseArgs_conf_idempotent exampleEnv exampleService exampleService exampleFS
      "/data/agent4016" "/data/agent4016" "localhost" "4016" "agent"
      "/data/agent4016" "localhost" "4017" "coordinator" "[server]\nthreads = 2\n"
      (by decide)).2.2.2⟩

/-! ## The argument vector of makeBaseArgs -/

/-- The argument vector splits into the common part, the part of the role
and the agency endpoints. -/
theorem baseArgs_eq (env : OSEnv) (s : Service)
    (myContainerDir myAddress myPort mode : String) :
    baseArgs env s myContainerDir myAddress myPort mode =
      if mode = "agent" then
        .ok (commonArgs env s myContainerDir ++
          [ "--agency.activate", "true",
            "--agency.my-address", "tcp://" ++ myAddress ++ ":" ++ myPort,
            "--agency.size", toString s.AgencySize,
            "--agency.supervision", "true",
            "--foxx.queues", "false",
            "--server.statistics", "false" ] ++
          agencyEndpoints s s.myPeers.Peers)
      else
        match clusterAgencyEndpoints s (List.range s.AgencySize.toNat) with
        | .error e => .error e
        | .ok eps =>
            .ok (commonArgs env s myContainerDir ++ clusterRoleArgs myAddress myPort mode ++
              eps) := by
  unfold baseArgs commonArgs clusterRoleArgs
  by_cases ht : s.ServerThreads = 0 <;> by_cases hagent : mode = "agent"
  · simp [hagent, ht]
  · by_cases hdb : mode = "dbserver"
    · cases clusterAgencyEndpoints s (List.range s.AgencySize.toNat) <;> simp [hdb, ht]
    · by_cases hco : mode = "coordinator"
      · cases clusterAgencyEndpoints s (List.range s.AgencySize.toNat) <;> simp [hco, ht]
      · cases clusterAgencyEndpoints s (List.range s.AgencySize.toNat) <;>
          simp [hagent, hdb, hco, ht]
  · simp [hagent, ht]
  · by_cases hdb : mode = "dbserver"
    · cases clusterAgencyEndpoints s (List.range s.AgencySize.toNat) <;> simp [hdb, ht]
    · by_cases hco : mode = "coordinator"
      · cases clusterAgencyEndpoints s (List.range s.AgencySize.toNat) <;> simp [hco, ht]
      · cases clusterAgencyEndpoints s (List.range s.AgencySize.toNat) <;>
          simp [hagent, hdb, hco, ht]

/-- The loop over indices succeeds on indices that are all in range and lists
the peers found there. -/
theorem clusterAgencyEndpoints_of_map (s : Service) (idxs : List Nat) (ps : List Peer)
    (h : idxs.map (fun i => s.myPeers.Peers[i]?) = ps.map some) :
    clusterAgencyEndpoints s idxs =
      .ok (ps.flatMap fun p => ["--cluster.agency-endpoint", agentEndpoint s p]) := by
  induction idxs generalizing ps with
  | nil =>
    cases ps with
    | nil => rfl
    | cons _ _ => simp at h
  | cons i is ih =>
    cases ps with
    | nil => simp at h
    | cons p ps =>
      simp only [List.map_cons, List.cons.injEq] at h
      unfold clusterAgencyEndpoints
      rw [h.1, ih ps h.2]
      rfl

/-- The first `n` indices of a list hold its first `n` elements. -/
theorem map_range_getElem? (l : List Peer) (n : Nat) (hn : n ≤ l.length) :
    (List.range n).map (fun i => l[i]?) = (l.take n).map some := by
  induction n with
  | zero => rfl
  | succ n ih =>
    have hlt : n < l.length := hn
    rw [List.range_succ, List.map_append, ih (Nat.le_of_lt hlt), List.take_succ,
      List.map_append]
    simp [List.getElem?_eq_getElem hlt]

/-- The loop of arangodb.go:262-268 when the peer set has at least
`AgencySize` peers. -/
theorem clusterAgencyEndpoints_range (s : Service)
    (hsize : s.AgencySize.toNat ≤ s.myPeers.Peers.length) :
    clusterAgencyEndpoints s (List.range s.AgencySize.toNat) =
      .ok ((s.myPeers.Peers.take s.AgencySize.toNat).flatMap
        fun p => ["--cluster.agency-endpoint", agentEndpoint s p]) :=
  clusterAgencyEndpoints_of_map s _ _ (map_range_getElem? _ _ hsize)

/-- What `makeBaseArgs` returns once the configuration-file step is through:
the vector of `baseArgs` and the configuration volumes. -/
theorem makeBaseArgs_ret (env : OSEnv) (s : Service) (fs : FS)
    (myHostDir myContainerDir myAddress myPort mode : String)
    (hconf : fs (env.Join myHostDir "arangod.conf") ≠ none ∨
      env.CreateFails (env.Join myHostDir "arangod.conf") = false) :
    (makeBaseArgs env s fs myHostDir myContainerDir myAddress myPort mode).ret =
      match baseArgs env s myContainerDir myAddress myPort mode with
      | .error e => .error e
      | .ok args => .ok (args, confVolumes env myHostDir myContainerDir) := by
  have hw : ∃ fs1, writeConfFile env fs (env.Join myHostDir "arangod.conf") myPort mode =
      .ok fs1 := by
    unfold writeConfFile
    cases hfile : fs (env.Join myHostDir "arangod.conf") with
    | some c => exact ⟨fs, rfl⟩
    | none =>
      rcases hconf with h | h
      · exact absurd hfile h
      · simp [h]
  obtain ⟨fs1, hfs1⟩ := hw
  simp only [makeBaseArgs, hfs1, confVolumes]
  cases baseArgs env s myContainerDir myAddress myPort mode <;> rfl

/-! ## Decimal strings -/

/-- A digit character has the value of its digit. -/
theorem digitVal_digitChar (d : Nat) (h : d < 10) : digitVal (Nat.digitChar d) = d := by
  interval_cases d <;> rfl

/-- A digit character is a digit. -/
theorem digitChar_isDigit (d : Nat) (h : d < 10) : (Nat.digitChar d).isDigit = true := by
  interval_cases d <;> rfl

/-- The decimal digits `Nat.toDigitsCore` puts in front of its accumulator: they
read back as the number, are all digits, and there is at least one. -/
theorem toDigitsCore_spec (fuel n : Nat) (h : n < fuel) :
    ∃ X : List Char, (∀ ds, Nat.toDigitsCore 10 fuel n ds = X ++ ds) ∧
      X.foldl (fun a c => 10 * a + digitVal c) 0 = n ∧ (∀ c ∈ X, c.isDigit = true) ∧ X ≠ [] := by
  induction fuel generalizing n with
  | zero => omega
  | succ fuel ih =>
    by_cases hz : n / 10 = 0
    · refine ⟨[Nat.digitChar (n % 10)], ?_, ?_, ?_, by simp⟩
      · intro ds
        simp [Nat.toDigitsCore, hz]
      · simp [digitVal_digitChar _ (Nat.mod_lt n (by decide))]
        omega
      · intro c hc
        simp at hc
        rw [hc]
        exact digitChar_isDigit _ (Nat.mod_lt n (by decide))
    · obtain ⟨X, hX, hval, hdig, _⟩ := ih (n / 10) (by omega)
      refine ⟨X ++ [Nat.digitChar (n % 10)], ?_, ?_, ?_, by simp⟩
      · intro ds
        simp [Nat.toDigitsCore, hz, hX]
      · rw [List.foldl_append, hval]
        simp [digitVal_digitChar _ (Nat.mod_lt n (by decide))]
        omega
      · intro c hc
        rcases List.mem_append.mp hc with hc | hc
        · exact hdig c hc
        · simp at hc
          rw [hc]
          exact digitChar_isDigit _ (Nat.mod_lt n (by decide))

/-- The characters of `toString n` for a natural number. -/
theorem toString_nat_data (n : Nat) : (toString n).data = Nat.toDigits 10 n := rfl

/-- Go's `%d` of a non-negative number, Lean's `toString`: the characters read
back as the number and are all digits. -/
theorem nat_toString_spec (n : Nat) :
    (toString n).data.foldl (fun a c => 10 * a + digitVal c) 0 = n ∧
      (∀ c ∈ (toString n).data, c.isDigit = true) ∧ (toString n).data ≠ [] := by
  obtain ⟨X, hX, hval, hdig, hne⟩ := toDigitsCore_spec (n + 1) n (by omega)
  have : (toString n).data = X := by
    rw [toString_nat_data, Nat.toDigits, hX []]
    simp
  rw [this]
  exact ⟨hval, hdig, hne⟩

/-- Different natural numbers have different decimal strings. -/
theorem nat_toString_injective (a b : Nat) (h : toString a = toString b) : a = b := by
  have ha := (nat_toString_spec a).1
  have hb := (nat_toString_spec b).1
  rw [h] at ha
  exact ha.symm.trans hb

/-- `toString` of a non-negative integer. -/
theorem int_toString_ofNat (n : Nat) : toString (Int.ofNat n) = toString n := rfl
/-- `toString` of a negative integer. -/
theorem int_toString_negSucc (n : Nat) : toString (Int.negSucc n) = "-" ++ toString (n + 1) := rfl

/-- A common start can be cancelled. -/
theorem string_append_left_cancel (a b c : String) (h : c ++ a = c ++ b) : a = b := by
  have := congrArg String.data h
  simp only [String.data_append] at this
  exact String.ext (List.append_cancel_left this)


/-- The decimal string of an integer has only digits and the sign. -/
theorem int_toString_chars (i : Int) : ∀ c ∈ (toString i).data, c.isDigit = true ∨ c = '-' := by
  cases i with
  | ofNat n =>
    intro c hc
    exact Or.inl ((nat_toString_spec n).2.1 c hc)
  | negSucc n =>
    intro c hc
    rw [int_toString_negSucc, String.data_append] at hc
    rcases List.mem_append.mp hc with hc | hc
    · right
      simpa using hc
    · exact Or.inl ((nat_toString_spec (n + 1)).2.1 c hc)

/-- Different integers have different decimal strings. -/
theorem int_toString_injective (i j : Int) (h : toString i = toString j) : i = j := by
  have hdash : ('-' : Char).isDigit = false := by decide
  cases i with
  | ofNat a =>
    cases j with
    | ofNat b =>
      rw [int_toString_ofNat, int_toString_ofNat] at h
      rw [nat_toString_injective a b h]
    | negSucc b =>
      exfalso
      rw [int_toString_ofNat, int_toString_negSucc] at h
      have hd := (nat_toString_spec a).2.1 '-'
      rw [h, String.data_append] at hd
      have := hd (by simp)
      rw [hdash] at this
      exact Bool.noConfusion this
  | negSucc a =>
    cases j with
    | ofNat b =>
      exfalso
      rw [int_toString_ofNat, int_toString_negSucc] at h
      have hd := (nat_toString_spec b).2.1 '-'
      rw [← h, String.data_append] at hd
      have := hd (by simp)
      rw [hdash] at this
      exact Bool.noConfusion this
    | negSucc b =>
      rw [int_toString_negSucc, int_toString_negSucc] at h
      have := nat_toString_injective _ _ (string_append_left_cancel _ _ _ h)
      have hab : a = b := by omega
      rw [hab]

/-- Two texts that end in a separator and a tail free of the separator are
equal only if both parts are. -/
theorem append_sep_inj (c : Char) (l1 l2 d1 d2 : List Char)
    (h1 : c ∉ d1) (h2 : c ∉ d2) (h : l1 ++ c :: d1 = l2 ++ c :: d2) : l1 = l2 ∧ d1 = d2 := by
  induction l1 generalizing l2 with
  | nil =>
    cases l2 with
    | nil => simpa using h
    | cons x l2 =>
      exfalso
      simp only [List.nil_append, List.cons_append, List.cons.injEq] at h
      apply h1
      rw [h.2]
      simp
  | cons y l1 ih =>
    cases l2 with
    | nil =>
      exfalso
      simp only [List.nil_append, List.cons_append, List.cons.injEq] at h
      apply h2
      rw [← h.2]
      simp
    | cons x l2 =>
      simp only [List.cons_append, List.cons.injEq] at h
      obtain ⟨hl, hd⟩ := ih l2 h.2
      exact ⟨by rw [h.1, hl], hd⟩

/-- No colon in the decimal string of an integer. -/
theorem colon_not_mem_int_toString (i : Int) : ':' ∉ (toString i).data := by
  intro h
  rcases int_toString_chars i ':' h with h | h
  · exact absurd h (by decide)
  · exact absurd h (by decide)

/-- The text `tcp://<address>:<port>` determines the address and the port. -/
theorem tcp_endpoint_inj (a1 a2 : String) (n1 n2 : Int)
    (h : "tcp://" ++ a1 ++ ":" ++ toString n1 = "tcp://" ++ a2 ++ ":" ++ toString n2) :
    a1 = a2 ∧ n1 = n2 := by
  have hd := congrArg String.data h
  simp only [String.data_append, List.append_assoc] at hd
  have hd2 := List.append_cancel_left hd
  simp only [List.singleton_append] at hd2
  obtain ⟨h1, h2⟩ := append_sep_inj ':' _ _ _ _ (colon_not_mem_int_toString n1)
    (colon_not_mem_int_toString n2) hd2
  exact ⟨String.ext h1, int_toString_injective _ _ (String.ext h2)⟩

/-! ## Agency endpoints in the argument vector -/

/-- The agent endpoint `makeBaseArgs` formats determines the address and the
port offset of the peer, for port offsets in the range of `int`. -/
theorem agentEndpoint_inj (s : Service) (p q : Peer)
    (hp : IsGoInt p.PortOffset) (hq : IsGoInt q.PortOffset)
    (h : agentEndpoint s p = agentEndpoint s q) :
    p.Address = q.Address ∧ p.PortOffset = q.PortOffset := by
  obtain ⟨ha, hn⟩ := tcp_endpoint_inj _ _ _ _ h
  exact ⟨ha, goAdd_goAdd_left_inj _ _ _ _ hp hq hn⟩

/-- The vector `makeBaseArgs` returns for a role other than the agent, when
the peer set has at least `AgencySize` peers. -/
theorem makeBaseArgs_ret_cluster (env : OSEnv) (s : Service) (fs : FS)
    (myHostDir myContainerDir myAddress myPort mode : String)
    (hmode : mode ≠ "agent")
    (hconf : fs (env.Join myHostDir "arangod.conf") ≠ none ∨
      env.CreateFails (env.Join myHostDir "arangod.conf") = false)
    (hsize : s.AgencySize.toNat ≤ s.myPeers.Peers.length) :
    (makeBaseArgs env s fs myHostDir myContainerDir myAddress myPort mode).ret =
      .ok (commonArgs env s myContainerDir ++ clusterRoleArgs myAddress myPort mode ++
        (s.myPeers.Peers.take s.AgencySize.toNat).flatMap
          (fun p => ["--cluster.agency-endpoint", agentEndpoint s p]),
        confVolumes env myHostDir myContainerDir) := by
  rw [makeBaseArgs_ret env s fs _ _ _ _ _ hconf, baseArgs_eq, if_neg hmode,
    clusterAgencyEndpoints_range s hsize]

/-- The vector `makeBaseArgs` returns for the agent. -/
theorem makeBaseArgs_ret_agent (env : OSEnv) (s : Service) (fs : FS)
    (myHostDir myContainerDir myAddress myPort : String)
    (hconf : fs (env.Join myHostDir "arangod.conf") ≠ none ∨
      env.CreateFails (env.Join myHostDir "arangod.conf") = false) :
    (makeBaseArgs env s fs myHostDir myContainerDir myAddress myPort "agent").ret =
      .ok (commonArgs env s myContainerDir ++
        [ "--agency.activate", "true",
          "--agency.my-address", "tcp://" ++ myAddress ++ ":" ++ myPort,
          "--agency.size", toString s.AgencySize,
          "--agency.supervision", "true",
          "--foxx.queues", "false",
          "--server.statistics", "false" ] ++
        (s.myPeers.Peers.filter fun p => p.HasAgent && p.ID != s.ID).flatMap
          (fun p => ["--agency.endpoint", agentEndpoint s p]),
        confVolumes env myHostDir myContainerDir) := by
  rw [makeBaseArgs_ret env s fs _ _ _ _ _ hconf, baseArgs_eq, if_pos rfl, agencyEndpoints_eq]

/-- C11: the `--cluster.agency-endpoint` values `makeBaseArgs` builds for a
data-server are not the agent endpoints of the peers flagged `HasAgent`.  In
`exampleShiftedService` (agency size 3) the agency participants are the
peers `b`, `c`, `d`, with agent endpoints on the ports 4006, 4011 and 4016,
but the vector lists the endpoints of the first three peers `a`, `b`, `c`:
`tcp://localhost:4001` is listed, the endpoint of peer `a`, which is not
flagged and for which `needsAgent` is false, and the agent of `d` is left
out.  The agent branch of the same function, on the same peers, lists the
agency participants by their flag. -/
theorem makeBaseArgs_cluster_agency_endpoints_failing_input :
    (makeBaseArgs exampleEnv exampleShiftedService exampleFS "/data/dbserver4018"
        "/data/dbserver4018" "localhost" "4018" "dbserver").ret =
      .ok (commonArgs exampleEnv exampleShiftedService "/data/dbserver4018" ++
        clusterRoleArgs "localhost" "4018" "dbserver" ++
        [ "--cluster.agency-endpoint", "tcp://localhost:4001",
          "--cluster.agency-endpoint", "tcp://localhost:4006",
          "--cluster.agency-endpoint", "tcp://localhost:4011" ],
        confVolumes exampleEnv "/data/dbserver4018" "/data/dbserver4018") ∧
    IsFlagValue "--cluster.agency-endpoint" "tcp://localhost:4001"
      (commonArgs exampleEnv exampleShiftedService "/data/dbserver4018" ++
        clusterRoleArgs "localhost" "4018" "dbserver" ++
        [ "--cluster.agency-endpoint", "tcp://localhost:4001",
          "--cluster.agency-endpoint", "tcp://localhost:4006",
          "--cluster.agency-endpoint", "tcp://localhost:4011" ]) ∧
    (∀ p ∈ exampleShiftedService.myPeers.Peers, p.HasAgent = true →
      agentEndpoint exampleShiftedService p ≠ "tcp://localhost:4001") ∧
    (exampleShiftedService.myPeers.Peers.filter fun p => p.HasAgent).map
        (agentEndpoint exampleShiftedService) =
      ["tcp://localhost:4006", "tcp://localhost:4011", "tcp://localhost:4016"] ∧
    needsAgent { exampleShiftedService with ID := "a" } = false ∧
    needsAgent exampleShiftedService = true ∧
    agencyEndpoints { exampleShiftedService with ID := "a" } exampleShiftedPeers.Peers =
      [ "--agency.endpoint", "tcp://localhost:4006",
        "--agency.endpoint", "tcp://localhost:4011",
        "--agency.endpoint", "tcp://localhost:4016" ] := by
  refine ⟨?_, ⟨_, _, rfl⟩, by decide, by decide, by decide, by decide, by decide⟩
  rw [makeBaseArgs_ret_cluster exampleEnv exampleShiftedService exampleFS _ _ _ _ _
    (by decide) (Or.inr rfl) (by decide)]
  exact congrArg (fun eps => Except.ok
    (commonArgs exampleEnv exampleShiftedService "/data/dbserver4018" ++
      clusterRoleArgs "localhost" "4018" "dbserver" ++ eps,
     confVolumes exampleEnv "/data/dbserver4018" "/data/dbserver4018")) (by decide)

/-- With fewer peers than `AgencySize` the loop of arangodb.go:262-268
indexes past the end of the peer set: for the two peers of
`exampleShortService` and agency size 3 the call panics at index 2. -/
theorem example_cluster_endpoints_out_of_range :
    baseArgs exampleEnv exampleShortService "/data/dbserver4003"
      "localhost" "4003" "dbserver" = .error (.indexOutOfRange 2) := by
  have h : clusterAgencyEndpoints exampleShortService
      (List.range exampleShortService.AgencySize.toNat) = .error (.indexOutOfRange 2) := by
    rfl
  rw [baseArgs_eq, if_neg (by decide), h]

/-- Where the peer set has at least `AgencySize` peers and the peers flagged
`HasAgent` are the first `AgencySize` of them, the `--cluster.agency-endpoint`
values of the data-server and the coordinator are the agent endpoints of the
agency participants, one per agency member, in peer order. -/
theorem makeBaseArgs_ret_cluster_of_flags (env : OSEnv) (s : Service) (fs : FS)
    (myHostDir myContainerDir myAddress myPort mode : String)
    (hmode : mode = "dbserver" ∨ mode = "coordinator")
    (hconf : fs (env.Join myHostDir "arangod.conf") ≠ none ∨
      env.CreateFails (env.Join myHostDir "arangod.conf") = false)
    (hsize : s.AgencySize.toNat ≤ s.myPeers.Peers.length)
    (hflag : (s.myPeers.Peers.filter fun p => p.HasAgent) =
      s.myPeers.Peers.take s.AgencySize.toNat) :
    (makeBaseArgs env s fs myHostDir myContainerDir myAddress myPort mode).ret =
      .ok (commonArgs env s myContainerDir ++ clusterRoleArgs myAddress myPort mode ++
        (s.myPeers.Peers.filter fun p => p.HasAgent).flatMap
          (fun p => ["--cluster.agency-endpoint", agentEndpoint s p]),
        confVolumes env myHostDir myContainerDir) := by
  have hne : mode ≠ "agent" := by
    rcases hmode with h | h <;> rw [h] <;> decide
  rw [hflag]
  exact makeBaseArgs_ret_cluster env s fs myHostDir myContainerDir myAddress myPort mode
    hne hconf hsize

/-- C12, as the code has it: for every peer set, the vector `makeBaseArgs`
returns for the agent holds `--agency.activate true`, `--agency.size
<AgencySize>` and then, in peer order, one `--agency.endpoint
tcp://<address>:<MasterPort+PortOffset+1>` (the sum in Go's `int`) for each
peer flagged `HasAgent` whose ID differs from the own ID, and for no other
peer.  No peer with the own ID is listed; the own agent endpoint is not
among the listed ones provided the peers of the set have pairwise different
(address, port offset) pairs, with port offsets in the range of `int`. -/
theorem makeBaseArgs_agent_args (env : OSEnv) (s : Service) (fs : FS)
    (myHostDir myContainerDir myAddress myPort : String)
    (hconf : fs (env.Join myHostDir "arangod.conf") ≠ none ∨
      env.CreateFails (env.Join myHostDir "arangod.conf") = false) :
    (makeBaseArgs env s fs myHostDir myContainerDir myAddress myPort "agent").ret =
      .ok (commonArgs env s myContainerDir ++
        [ "--agency.activate", "true",
          "--agency.my-address", "tcp://" ++ myAddress ++ ":" ++ myPort,
          "--agency.size", toString s.AgencySize,
          "--agency.supervision", "true",
          "--foxx.queues", "false",
          "--server.statistics", "false" ] ++
        (s.myPeers.Peers.filter fun p => p.HasAgent && p.ID != s.ID).flatMap
          (fun p => ["--agency.endpoint",
            "tcp://" ++ p.Address ++ ":" ++
              toString (goAdd (goAdd s.MasterPort p.PortOffset) 1)]),
        confVolumes env myHostDir myContainerDir) ∧
    (∀ p, p ∈ (s.myPeers.Peers.filter fun p => p.HasAgent && p.ID != s.ID) ↔
      p ∈ s.myPeers.Peers ∧ p.HasAgent = true ∧ p.ID ≠ s.ID) ∧
    (∀ me : Peer, s.myPeers.PeerByID s.ID = some me →
      s.myPeers.Peers.Pairwise
        (fun p q => ¬ (p.Address = q.Address ∧ p.PortOffset = q.PortOffset)) →
      (∀ p ∈ s.myPeers.Peers, IsGoInt p.PortOffset) →
      agentEndpoint s me ∉
        (s.myPeers.Peers.filter fun p => p.HasAgent && p.ID != s.ID).map (agentEndpoint s)) := by
  refine ⟨makeBaseArgs_ret_agent env s fs myHostDir myContainerDir myAddress myPort hconf,
    ?_, ?_⟩
  · intro p
    simp [List.mem_filter]
  · intro me hme hpair hrange hmem
    obtain ⟨p, hp, heq⟩ := List.mem_map.mp hmem
    rw [List.mem_filter] at hp
    have hid : p.ID ≠ s.ID := by
      have := hp.2
      simp only [Bool.and_eq_true, bne_iff_ne] at this
      exact this.2
    have hmemme : me ∈ s.myPeers.Peers := List.mem_of_find?_eq_some hme
    have hmeid : me.ID = s.ID := by
      have := List.find?_some hme
      simpa using this
    have hne : p ≠ me := by
      rintro rfl
      exact hid hmeid
    have hsymm : Symmetric
        (fun p q : Peer => ¬ (p.Address = q.Address ∧ p.PortOffset = q.PortOffset)) :=
      fun x y hxy h => hxy ⟨h.1.symm, h.2.symm⟩
    exact hpair.forall hsymm hp.1 hmemme hne
      (agentEndpoint_inj s p me (hrange p hp.1) (hrange me hmemme) heq)

/-- The agent of starter `b` in a three-peer cluster: the agents of `a` and
`c` are listed, its own endpoint `tcp://localhost:4006` is not. -/
theorem makeBaseArgs_agent_args_witness :
    (makeBaseArgs exampleEnv exampleServiceB exampleFS "/data/agent4006" "/data/agent4006"
        "localhost" "4006" "agent").ret =
      .ok (commonArgs exampleEnv exampleServiceB "/data/agent4006" ++
        [ "--agency.activate", "true",
          "--agency.my-address", "tcp://localhost:4006",
          "--agency.size", "3",
          "--agency.supervision", "true",
          "--foxx.queues", "false",
          "--server.statistics", "false" ] ++
        [ "--agency.endpoint", "tcp://localhost:4001",
          "--agency.endpoint", "tcp://localhost:4011" ],
        confVolumes exampleEnv "/data/agent4006" "/data/agent4006") ∧
    agentEndpoint exampleServiceB ⟨"b", "localhost", 5, true⟩ = "tcp://localhost:4006" ∧
    agentEndpoint exampleServiceB ⟨"b", "localhost", 5, true⟩ ∉
      (exampleServiceB.myPeers.Peers.filter
        fun p => p.HasAgent && p.ID != exampleServiceB.ID).map
        (agentEndpoint exampleServiceB) :=
  ⟨(makeBaseArgs_agent_args exampleEnv exampleServiceB exampleFS "/data/agent4006"
    "/data/agent4006" "localhost" "4006" (Or.inr rfl)).1.trans
    (congrArg (fun rest => Except.ok
      (commonArgs exampleEnv exampleServiceB "/data/agent4006" ++ rest,
       confVolumes exampleEnv "/data/agent4006" "/data/agent4006")) (by decide)),
    by decide,
    (makeBaseArgs_agent_args exampleEnv exampleServiceB exampleFS "/data/agent4006"
      "/data/agent4006" "localhost" "4006" (Or.inr rfl)).2.2 ⟨"b", "localhost", 5, true⟩
      (by decide) (by decide) (by decide)⟩

/-- C12 as stated fails: in `exampleTwinService` the peers `a` (the own one)
and `b` have different IDs but one address and port offset; the vector of
the agent of `a` lists `--agency.endpoint tcp://localhost:4001`, which is the
own agent endpoint. -/
theorem makeBaseArgs_agent_args_counterexample :
    (makeBaseArgs exampleEnv exampleTwinService exampleFS "/data/agent4001"
        "/data/agent4001" "localhost" "4001" "agent").ret =
      .ok (commonArgs exampleEnv exampleTwinService "/data/agent4001" ++
        [ "--agency.activate", "true",
          "--agency.my-address", "tcp://localhost:4001",
          "--agency.size", "2",
          "--agency.supervision", "true",
          "--foxx.queues", "false",
          "--server.statistics", "false" ] ++
        [ "--agency.endpoint", "tcp://localhost:4001" ],
        confVolumes exampleEnv "/data/agent4001" "/data/agent4001") ∧
    IsFlagValue "--agency.endpoint" "tcp://localhost:4001"
      (commonArgs exampleEnv exampleTwinService "/data/agent4001" ++
        [ "--agency.activate", "true",
          "--agency.my-address", "tcp://localhost:4001",
          "--agency.size", "2",
          "--agency.supervision", "true",
          "--foxx.queues", "false",
          "--server.statistics", "false" ] ++
        [ "--agency.endpoint", "tcp://localhost:4001" ]) ∧
    exampleTwinService.myPeers.PeerByID exampleTwinService.ID =
      some ⟨"a", "localhost", 0, true⟩ ∧
    agentEndpoint exampleTwinService ⟨"a", "localhost", 0, true⟩ = "tcp://localhost:4001" ∧
    startRunningPorts exampleTwinService =
      some [("agent", 4001), ("dbserver", 4003), ("coordinator", 4002)] := by
  refine ⟨?_, ⟨_, _, rfl⟩, by decide, by decide, by decide⟩
  rw [makeBaseArgs_ret_agent exampleEnv exampleTwinService exampleFS _ _ _ _ (Or.inr rfl)]
  exact congrArg (fun rest => Except.ok
    (commonArgs exampleEnv exampleTwinService "/data/agent4001" ++ rest,
     confVolumes exampleEnv "/data/agent4001" "/data/agent4001")) (by decide)

/-! ## The shutdown sequence of startRunning -/

/-- A guarded call adds its call to the calls made so far when the handle is
set, and nothing otherwise; whether the call fails makes no difference. -/
theorem shutdownHandle_actions (fails : ShutdownAction → Bool) (warning : String)
    (handle : Option Process) (call : Process → ShutdownAction) (log : ShutdownLog) :
    (shutdownHandle fails warning handle call log).actions =
      log.actions ++ handle.toList.map call := by
  cases handle <;> simp [shutdownHandle, shutdownCall]

/-- C13: the shutdown sequence calls, on the handles that are set and in this
order, terminate on coordinator, data-server and agent, cleanup on
coordinator, data-server and agent, and last the runner's cleanup; the calls
made do not depend on which calls fail, the runner's cleanup is called
exactly once, and once the stop flag has been seen the sequence is run. -/
theorem shutdown_actions (fails : ShutdownAction → Bool) (servers : Servers) :
    (shutdown fails servers).actions =
      servers.coordinatorProc.toList.map ShutdownAction.terminate ++
      servers.dbserverProc.toList.map ShutdownAction.terminate ++
      servers.agentProc.toList.map ShutdownAction.terminate ++
      servers.coordinatorProc.toList.map ShutdownAction.cleanup ++
      servers.dbserverProc.toList.map ShutdownAction.cleanup ++
      servers.agentProc.toList.map ShutdownAction.cleanup ++
      [ShutdownAction.runnerCleanup] ∧
    (shutdown fails servers).actions = (shutdown (fun _ => false) servers).actions ∧
    (shutdown fails servers).actions.count ShutdownAction.runnerCleanup = 1 ∧
    (∀ (stopAt : Nat → Bool) (k fuel : Nat), stopAt k = true →
      (∀ j, j < k → stopAt j = false) →
      waitAndShutdown stopAt fails servers (k + 1 + fuel) 0 = some (shutdown fails servers)) := by
  have hact : ∀ f : ShutdownAction → Bool, (shutdown f servers).actions =
      servers.coordinatorProc.toList.map ShutdownAction.terminate ++
      servers.dbserverProc.toList.map ShutdownAction.terminate ++
      servers.agentProc.toList.map ShutdownAction.terminate ++
      servers.coordinatorProc.toList.map ShutdownAction.cleanup ++
      servers.dbserverProc.toList.map ShutdownAction.cleanup ++
      servers.agentProc.toList.map ShutdownAction.cleanup ++
      [ShutdownAction.runnerCleanup] := by
    intro f
    simp only [shutdown, shutdownCall, shutdownHandle_actions, List.nil_append]
  refine ⟨hact fails, by rw [hact fails, hact], ?_, ?_⟩
  · rw [hact fails]
    cases servers.coordinatorProc <;> cases servers.dbserverProc <;>
      cases servers.agentProc <;> simp
  · intro stopAt k fuel hk hbefore
    have key : ∀ (d j : Nat), j + d = k →
        waitAndShutdown stopAt fails servers (d + 1 + fuel) j =
          some (shutdown fails servers) := by
      intro d
      induction d with
      | zero =>
        intro j hj
        have hjk : j = k := by omega
        rw [show 0 + 1 + fuel = fuel + 1 by omega, waitAndShutdown, hjk, if_pos hk]
      | succ d ih =>
        intro j hj
        rw [show d + 1 + 1 + fuel = (d + 1 + fuel) + 1 by omega, waitAndShutdown,
          if_neg (by rw [hbefore j (by omega)]; exact Bool.false_ne_true)]
        exact ih (j + 1) (by omega)
    exact key k 0 (by omega)

/-- Every call of the shutdown of three running roles fails, and every call
is made all the same. -/
theorem example_shutdown_all_calls_fail :
    shutdown (fun _ => true) exampleServers =
      { actions :=
          [ .terminate ⟨3⟩, .terminate ⟨2⟩, .terminate ⟨1⟩,
            .cleanup ⟨3⟩, .cleanup ⟨2⟩, .cleanup ⟨1⟩, .runnerCleanup ],
        warnings :=
          [ "Failed to terminate coordinator", "Failed to terminate dbserver",
            "Failed to terminate agent", "Failed to cleanup coordinator",
            "Failed to cleanup dbserver", "Failed to cleanup agent",
            "Failed to cleanup runner" ] } := by
  decide

/-! ## client/error.go -/

/-- Wrapping with `maskAny` does not change the cause. -/
theorem Cause_maskAny (err : GoError) : Cause (maskAny err) = Cause err := by
  cases err <;> rfl

/-- The cause of a `StatusError` wrapped any number of times is that
`StatusError`. -/
theorem Cause_iterate_maskAny (n : Nat) (serr : StatusError) :
    Cause (maskAny^[n] (GoError.status serr)) = GoError.status serr := by
  induction n with
  | zero => rfl
  | succ n ih => rw [Function.iterate_succ_apply', Cause_maskAny, ih]

/-- C14: for a `StatusError` with code `c` and message `m`, wrapped `n` times
with `maskAny`, `IsStatusError` returns `(c, true)` and the five kind
predicates hold exactly for the codes 404, 400, 412, 503, 500; the answers
are the same for any other message; at most one kind holds for any error;
and for an error whose cause is no `StatusError`, `IsStatusError` returns
`(0, false)` and every kind predicate is false. -/
theorem status_error_classification (c : Int) (m : String) (n : Nat) :
    IsStatusError (maskAny^[n] (GoError.status ⟨c, m⟩)) = (c, true) ∧
    (IsNotFound (maskAny^[n] (GoError.status ⟨c, m⟩)) = true ↔ c = 404) ∧
    (IsBadRequest (maskAny^[n] (GoError.status ⟨c, m⟩)) = true ↔ c = 400) ∧
    (IsPreconditionFailed (maskAny^[n] (GoError.status ⟨c, m⟩)) = true ↔ c = 412) ∧
    (IsServiceUnavailable (maskAny^[n] (GoError.status ⟨c, m⟩)) = true ↔ c = 503) ∧
    (IsInternalServer (maskAny^[n] (GoError.status ⟨c, m⟩)) = true ↔ c = 500) ∧
    (∀ (m2 : String) (n2 : Nat),
      IsStatusError (maskAny^[n2] (GoError.status ⟨c, m2⟩)) =
        IsStatusError (maskAny^[n] (GoError.status ⟨c, m⟩)) ∧
      ∀ code, IsStatusErrorWithCode (maskAny^[n2] (GoError.status ⟨c, m2⟩)) code =
        IsStatusErrorWithCode (maskAny^[n] (GoError.status ⟨c, m⟩)) code) ∧
    (∀ err : GoError,
      ([IsNotFound err, IsBadRequest err, IsPreconditionFailed err,
        IsServiceUnavailable err, IsInternalServer err].count true ≤ 1)) ∧
    (∀ err : GoError, (∀ serr, Cause err ≠ GoError.status serr) →
      IsStatusError err = (0, false) ∧ IsNotFound err = false ∧ IsBadRequest err = false ∧
      IsPreconditionFailed err = false ∧ IsServiceUnavailable err = false ∧
      IsInternalServer err = false) := by
  have hcode : ∀ (m2 : String) (n2 : Nat) (code : Int),
      IsStatusErrorWithCode (maskAny^[n2] (GoError.status ⟨c, m2⟩)) code = (c == code) := by
    intro m2 n2 code
    simp [IsStatusErrorWithCode, Cause_iterate_maskAny]
  have hstat : ∀ (m2 : String) (n2 : Nat),
      IsStatusError (maskAny^[n2] (GoError.status ⟨c, m2⟩)) = (c, true) := by
    intro m2 n2
    simp [IsStatusError, Cause_iterate_maskAny]
  refine ⟨hstat m n, ?_, ?_, ?_, ?_, ?_, ?_, ?_, ?_⟩
  · simp [IsNotFound, hcode, StatusNotFound]
  · simp [IsBadRequest, hcode, StatusBadRequest]
  · simp [IsPreconditionFailed, hcode, StatusPreconditionFailed]
  · simp [IsServiceUnavailable, hcode, StatusServiceUnavailable]
  · simp [IsInternalServer, hcode, StatusInternalServerError]
  · intro m2 n2
    exact ⟨by rw [hstat, hstat], fun code => by rw [hcode, hcode]⟩
  · intro err
    simp only [IsNotFound, IsBadRequest, IsPreconditionFailed, IsServiceUnavailable,
      IsInternalServer, IsStatusErrorWithCode, StatusNotFound, StatusBadRequest,
      StatusPreconditionFailed, StatusServiceUnavailable, StatusInternalServerError]
    cases hcause : Cause err with
    | status serr =>
      simp only
      by_cases h1 : serr.StatusCode = 404
      · simp [h1]
      · by_cases h2 : serr.StatusCode = 400
        · simp [h2]
        · by_cases h3 : serr.StatusCode = 412
          · simp [h3]
          · by_cases h4 : serr.StatusCode = 503
            · simp [h4]
            · by_cases h5 : serr.StatusCode = 500
              · simp [h5]
              · simp [h1, h2, h3, h4, h5]
    | nil => simp
    | other t => simp
    | withStack e => simp
  · intro err hno
    simp only [IsStatusError, IsNotFound, IsBadRequest, IsPreconditionFailed,
      IsServiceUnavailable, IsInternalServer, IsStatusErrorWithCode]
    cases hcause : Cause err with
    | status serr => exact absurd hcause (hno serr)
    | nil => simp
    | other t => simp
    | withStack e => simp

/-- A not-found error with a misleading message, wrapped twice, and an error
that is no `StatusError`. -/
theorem example_classify_wrapped_errors :
    IsStatusError (maskAny (maskAny (NewNotFoundError "bad request"))) = (404, true) ∧
    IsNotFound (maskAny (maskAny (NewNotFoundError "bad request"))) = true ∧
    IsBadRequest (maskAny (maskAny (NewNotFoundError "bad request"))) = false ∧
    IsStatusError (maskAny (GoError.other "not found")) = (0, false) ∧
    IsNotFound (maskAny (GoError.other "not found")) = false ∧
    IsStatusError GoError.nil = (0, false) := by
  decide

/-- C15: `ParseResponseError` returns a `StatusError` with the status code of
the response; when the body (the one given, or the one read from the
response when none is given) is not empty and decodes as an `ErrorResponse`,
the message is the decoded `Error` text; when the body is empty or does not
decode there is no message and `Error()` is "Status <code>", as it is
whenever the message is empty. -/
theorem ParseResponseError_spec (unmarshal : Unmarshal) (r : Response)
    (body : Option String) :
    (ParseResponseError unmarshal r body).StatusCode = r.StatusCode ∧
    (∀ m, body.getD r.Body ≠ "" → unmarshal (body.getD r.Body) = some ⟨m⟩ →
      (ParseResponseError unmarshal r body).message = m) ∧
    (body.getD r.Body = "" ∨ unmarshal (body.getD r.Body) = none →
      (ParseResponseError unmarshal r body).message = "" ∧
      (ParseResponseError unmarshal r body).Error = "Status " ++ toString r.StatusCode) ∧
    ((ParseResponseError unmarshal r body).message = "" →
      (ParseResponseError unmarshal r body).Error = "Status " ++ toString r.StatusCode) := by
  have hbody : (match body with
      | none => r.Body
      | some b => b) = body.getD r.Body := by
    cases body <;> rfl
  have hcode : (ParseResponseError unmarshal r body).StatusCode = r.StatusCode := by
    simp only [ParseResponseError, hbody]
    split_ifs
    · cases unmarshal (body.getD r.Body) <;> rfl
    · rfl
  have herr : (ParseResponseError unmarshal r body).message = "" →
      (ParseResponseError unmarshal r body).Error = "Status " ++ toString r.StatusCode := by
    intro hm
    simp [StatusError.Error, hm, hcode]
  have hnone : body.getD r.Body = "" ∨ unmarshal (body.getD r.Body) = none →
      (ParseResponseError unmarshal r body).message = "" := by
    intro h
    simp only [ParseResponseError, hbody]
    split_ifs with hne
    · rcases h with h | h
      · exact absurd h hne
      · rw [h]
    · rfl
  refine ⟨hcode, ?_, fun h => ⟨hnone h, herr (hnone h)⟩, herr⟩
  intro m hne hdec
  simp only [ParseResponseError, hbody, if_pos hne, hdec]

/-- The decoder of the examples on a 404 response: an error document given
as body, an empty object read from the response, an empty body, and text
that is no JSON. -/
theorem example_parse_response_errors :
    ParseResponseError exampleUnmarshal ⟨404, ""⟩
        (some "\x7b\"Error\": \"no such peer\"\x7d") = ⟨404, "no such peer"⟩ ∧
    (ParseResponseError exampleUnmarshal ⟨404, "\x7b\x7d"⟩ none).Error = "Status 404" ∧
    ParseResponseError exampleUnmarshal ⟨404, "ignored"⟩ (some "") = ⟨404, ""⟩ ∧
    (ParseResponseError exampleUnmarshal ⟨503, "<html>"⟩ none).Error = "Status 503" := by
  decide

/-! ## The consecutive-failure counter -/

/-- The trailing run after one more exit: one longer after a quick exit,
empty after an exit with at least 30 seconds of uptime. -/
theorem trailingQuickExits_succ (attempts : Nat → Attempt) (n : Nat) :
    trailingQuickExits attempts (n + 1) =
      if (attempts n).uptime < Second * 30 then trailingQuickExits attempts n + 1 else 0 := by
  unfold trailingQuickExits
  rw [List.range_succ, List.map_append, List.reverse_append]
  by_cases h : (attempts n).uptime < Second * 30
  · simp [List.takeWhile_cons, h]
  · simp [List.takeWhile_cons, h]

/-- One pass from a state still going: the loop is still going afterwards. -/
theorem runArangod_one_of_continue (attempts : Nat → Attempt) (st st1 : LoopState)
    (h : runArangodStep (attempts st.restart) st = (st1, none)) :
    runArangod attempts 1 st = (st1, none) := by
  rw [runArangod_succ, h]
  rfl

/-- One pass that leaves the loop, and any fuel after it. -/
theorem runArangod_of_exit (attempts : Nat → Attempt) (st st1 : LoopState) (e : Exit)
    (k : Nat) (h : runArangodStep (attempts st.restart) st = (st1, some e)) :
    runArangod attempts (1 + k) st = (st1, some e) := by
  apply runArangod_exit_mono
  rw [runArangod_succ, h]

/-- While the trailing run of quick exits stays below 100, the loop is still
going after `n` exits, with `n` restarts made, the stop flag unset and the
counter equal to the trailing run. -/
theorem runArangod_counter_running (attempts : Nat → Attempt)
    (hstart : ∀ k, ∃ p, (attempts k).start = .ok p)
    (hstop : ∀ k, (attempts k).stopSet = false)
    (processVar : Option Process) (n : Nat)
    (hbelow : ∀ m, m ≤ n → trailingQuickExits attempts m < 100) :
    (runArangod attempts n (LoopState.init false processVar)).2 = none ∧
    (runArangod attempts n (LoopState.init false processVar)).1.recentFailures =
      trailingQuickExits attempts n ∧
    (runArangod attempts n (LoopState.init false processVar)).1.stop = false ∧
    (runArangod attempts n (LoopState.init false processVar)).1.restart = n := by
  induction n with
  | zero =>
    refine ⟨rfl, ?_, rfl, rfl⟩
    simp [runArangod, LoopState.init, trailingQuickExits]
  | succ n ih =>
    obtain ⟨hgo, hrf, hst, hre⟩ := ih (fun m hm => hbelow m (Nat.le_succ_of_le hm))
    have hnext := hbelow (n + 1) (Nat.le_refl _)
    rw [trailingQuickExits_succ] at hnext
    rw [runArangod_add attempts n 1 _ hgo, trailingQuickExits_succ]
    generalize (runArangod attempts n (LoopState.init false processVar)).1 = st at hrf hst hre
    obtain ⟨p, hp⟩ := hstart st.restart
    rw [← hrf, ← hre] at hnext ⊢
    by_cases hq : (attempts st.restart).uptime < Second * 30
    · rw [if_pos hq] at hnext ⊢
      rw [runArangod_one_of_continue attempts st _
        (runArangodStep_quick_continue _ st p hp hq (hstop _) hst
          (by simp only [maxRecentFailures]; omega))]
      exact ⟨rfl, rfl, rfl, rfl⟩
    · rw [if_neg hq]
      rw [runArangod_one_of_continue attempts st _
        (runArangodStep_long _ st p hp (not_lt.mp hq) (hstop _) hst)]
      exact ⟨rfl, rfl, rfl, rfl⟩

/-- The counter of a loop that has not seen a stop never exceeds the cap. -/
theorem runArangod_counter_le (attempts : Nat → Attempt)
    (hstart : ∀ k, ∃ p, (attempts k).start = .ok p)
    (hstop : ∀ k, (attempts k).stopSet = false)
    (fuel : Nat) (st : LoopState) (hst : st.stop = false)
    (hrf : st.recentFailures < maxRecentFailures) :
    (runArangod attempts fuel st).1.recentFailures ≤ maxRecentFailures := by
  induction fuel generalizing st with
  | zero => exact Nat.le_of_lt hrf
  | succ fuel ih =>
    obtain ⟨p, hp⟩ := hstart st.restart
    rw [runArangod_succ]
    by_cases hq : (attempts st.restart).uptime < Second * 30
    · by_cases hcap : st.recentFailures + 1 < maxRecentFailures
      · rw [runArangodStep_quick_continue _ st p hp hq (hstop _) hst hcap]
        exact ih _ rfl hcap
      · rw [runArangodStep_quick_giveUp _ st p hp hq (hstop _) hst (by omega)]
        simp only
        omega
    · rw [runArangodStep_long _ st p hp (not_lt.mp hq) (hstop _) hst]
      exact ih _ rfl (by simp [maxRecentFailures])

/-- C16: in a loop with no start error and no stop from outside, as long as
the trailing run of exits with uptime below 30 seconds has stayed below 100
the loop is still going and the counter equals that run (an uptime of
exactly 30 seconds empties the run); at the first exit at which the run
reaches 100 the loop gives up and sets the stop flag, with the counter at
100; and the counter never exceeds 100. -/
theorem runArangod_counter (attempts : Nat → Attempt)
    (hstart : ∀ k, ∃ p, (attempts k).start = .ok p)
    (hstop : ∀ k, (attempts k).stopSet = false)
    (processVar : Option Process) :
    (∀ n, (∀ m, m ≤ n → trailingQuickExits attempts m < 100) →
      (runArangod attempts n (LoopState.init false processVar)).2 = none ∧
      (runArangod attempts n (LoopState.init false processVar)).1.recentFailures =
        trailingQuickExits attempts n ∧
      (runArangod attempts n (LoopState.init false processVar)).1.stop = false ∧
      (runArangod attempts n (LoopState.init false processVar)).1.restart = n) ∧
    (∀ n, (∀ m, m ≤ n → trailingQuickExits attempts m < 100) →
      trailingQuickExits attempts (n + 1) = 100 →
      ∀ fuel, n + 1 ≤ fuel →
        (runArangod attempts fuel (LoopState.init false processVar)).2 = some .gaveUp ∧
        (runArangod attempts fuel (LoopState.init false processVar)).1.stop = true ∧
        (runArangod attempts fuel (LoopState.init false processVar)).1.recentFailures =
          trailingQuickExits attempts (n + 1) ∧
        (runArangod attempts fuel (LoopState.init false processVar)).1.restart = n) ∧
    (∀ fuel, (runArangod attempts fuel (LoopState.init false processVar)).1.recentFailures
      ≤ 100) ∧
    (∀ n, (attempts n).uptime = Second * 30 → trailingQuickExits attempts (n + 1) = 0) := by
  refine ⟨fun n hbelow => runArangod_counter_running attempts hstart hstop processVar n hbelow,
    ?_, ?_, ?_⟩
  · intro n hbelow hfull fuel hfuel
    obtain ⟨hgo, hrf, hst, hre⟩ :=
      runArangod_counter_running attempts hstart hstop processVar n hbelow
    obtain ⟨k, rfl⟩ : ∃ k, fuel = n + (1 + k) := ⟨fuel - (n + 1), by omega⟩
    rw [runArangod_add attempts n (1 + k) _ hgo, hfull]
    rw [trailingQuickExits_succ] at hfull
    generalize (runArangod attempts n (LoopState.init false processVar)).1 = st at hrf hst hre
    obtain ⟨p, hp⟩ := hstart st.restart
    rw [← hrf, ← hre] at hfull
    by_cases hq : (attempts st.restart).uptime < Second * 30
    · rw [if_pos hq] at hfull
      rw [runArangod_of_exit attempts st _ _ k
        (runArangodStep_quick_giveUp _ st p hp hq (hstop _) hst
          (by simp only [maxRecentFailures]; omega))]
      exact ⟨rfl, rfl, hfull, hre⟩
    · rw [if_neg hq] at hfull
      omega
  · intro fuel
    exact runArangod_counter_le attempts hstart hstop fuel _ rfl
      (by simp [LoopState.init, maxRecentFailures])
  · intro n h30
    rw [trailingQuickExits_succ, h30, if_neg (lt_irrefl _)]

/-- A process that exits after 1, 1, 30, 1 and 1 seconds: after the fifth
exit the counter is 2. -/
theorem runArangod_counter_witness :
    trailingQuickExits exampleMixedAttempts 5 = 2 ∧
    (runArangod exampleMixedAttempts 5 (LoopState.init false none)).2 = none ∧
    (runArangod exampleMixedAttempts 5 (LoopState.init false none)).1.recentFailures =
      trailingQuickExits exampleMixedAttempts 5 ∧
    (runArangod exampleMixedAttempts 5 (LoopState.init false none)).1.stop = false ∧
    (runArangod exampleMixedAttempts 5 (LoopState.init false none)).1.restart = 5 :=
  ⟨by decide,
    (runArangod_counter exampleMixedAttempts (fun k => ⟨⟨k⟩, rfl⟩) (fun _ => rfl) none).1 5
      (by
        intro m hm
        interval_cases m <;> decide)⟩

/-! ## Restart generations and instance names -/

/-- The loop of the one-second process: the generations 0 to 99 in order, and
the instance names of generations 0 and 1 of the agent of starter `d`. -/
theorem example_generations_and_names :
    (runArangod exampleQuickAttempts 1000 (LoopState.init false none)).1.started.reverse =
      List.range 100 ∧
    containerName exampleService "agent" 0 "localhost" 4016 = "agent-d-0-localhost-4016" ∧
    containerName exampleService "agent" 1 "localhost" 4016 = "agent-d-1-localhost-4016" := by
  set_option maxRecDepth 100000 in decide

/-! ## Start errors -/

/-- When `runner.GetRunningServer` returns an error, `startArangod` returns
it, having made no other call and written no file. -/
theorem startArangod_of_getRunningServer_error (env : OSEnv) (s : Service)
    (portOffset : Int) (myHost : String) (r : RunnerReplies) (fs : FS)
    (serverPortOffset : Int) (mode : String) (restart : Nat) (e : String)
    (h : r.GetRunningServer = .error e) :
    (startArangod env s portOffset myHost r fs serverPortOffset mode restart).ret =
      .ok (.error e) ∧
    (startArangod env s portOffset myHost r fs serverPortOffset mode restart).fs = fs ∧
    (startArangod env s portOffset myHost r fs serverPortOffset mode restart).calls =
      [.getRunningServer
        (env.Join s.DataDir (mode ++ toString (myPort s portOffset serverPortOffset)))] := by
  simp [startArangod, h]

/-- When `startArangod` gets as far as `runner.Start` and that call returns an
error, `startArangod` returns it. -/
theorem startArangod_of_start_error (env : OSEnv) (s : Service)
    (portOffset : Int) (myHost : String) (r : RunnerReplies) (fs : FS)
    (serverPortOffset : Int) (mode : String) (restart : Nat) (e : String)
    (command : String) (args : List String) (vols : List Volume)
    (ports : List Int) (name dir : String)
    (hcall : RunnerCall.start command args vols ports name dir ∈
      (startArangod env s portOffset myHost r fs serverPortOffset mode restart).calls)
    (h : r.Start = .error e) :
    (startArangod env s portOffset myHost r fs serverPortOffset mode restart).ret =
      .ok (.error e) := by
  unfold startArangod at hcall ⊢
  simp only at hcall ⊢
  repeat' split at hcall
  all_goals simp at hcall
  all_goals simp_all

/-- An error `startArangod` returns comes from `runner.GetRunningServer` or
from `runner.Start`. -/
theorem startArangod_error_source (env : OSEnv) (s : Service)
    (portOffset : Int) (myHost : String) (r : RunnerReplies) (fs : FS)
    (serverPortOffset : Int) (mode : String) (restart : Nat) (e : String)
    (h : (startArangod env s portOffset myHost r fs serverPortOffset mode restart).ret =
      .ok (.error e)) :
    r.GetRunningServer = .error e ∨ r.Start = .error e := by
  unfold startArangod at h
  simp only at h
  repeat' split at h
  all_goals simp at h
  all_goals simp_all

/-- C19: when `startArangod` returns an error in a pass of `runArangod`, the
loop is left in that pass: there is no restart, the consecutive-failure
counter, the stop flag and the stored process handle are as they were before
the attempt.  `startArangod` returns an error when the runner's
locate-running call does, or when it gets as far as the start call and that
call does, and in no other case. -/
theorem runArangod_start_error (attempts : Nat → Attempt) (fuel : Nat) (st : LoopState)
    (e : String) (hattempt : (attempts st.restart).start = .error e) :
    runArangod attempts (fuel + 1) st =
      (⟨st.restart, st.recentFailures, st.stop, st.processVar, st.restart :: st.started⟩,
        some .startError) ∧
    (∀ (env : OSEnv) (s : Service) (portOffset : Int) (myHost : String) (r : RunnerReplies)
      (fs : FS) (serverPortOffset : Int) (mode : String),
      (r.GetRunningServer = .error e →
        (startArangod env s portOffset myHost r fs serverPortOffset mode st.restart).ret =
          .ok (.error e)) ∧
      ((∃ command args vols ports name dir,
          RunnerCall.start command args vols ports name dir ∈
            (startArangod env s portOffset myHost r fs serverPortOffset mode
              st.restart).calls) →
        r.Start = .error e →
        (startArangod env s portOffset myHost r fs serverPortOffset mode st.restart).ret =
          .ok (.error e)) ∧
      ((startArangod env s portOffset myHost r fs serverPortOffset mode st.restart).ret =
          .ok (.error e) →
        r.GetRunningServer = .error e ∨ r.Start = .error e)) := by
  constructor
  · have hstep : runArangodStep (attempts st.restart) st =
        (⟨st.restart, st.recentFailures, st.stop, st.processVar, st.restart :: st.started⟩,
          some .startError) := by
      simp [runArangodStep, hattempt]
    rw [show fuel + 1 = 1 + fuel by omega]
    exact runArangod_of_exit attempts st _ _ fuel hstep
  · intro env s portOffset myHost r fs serverPortOffset mode
    refine ⟨fun h => (startArangod_of_getRunningServer_error env s portOffset myHost r fs
      serverPortOffset mode st.restart e h).1, ?_,
      startArangod_error_source env s portOffset myHost r fs serverPortOffset mode
        st.restart e⟩
    rintro ⟨command, args, vols, ports, name, dir, hcall⟩ h
    exact startArangod_of_start_error env s portOffset myHost r fs serverPortOffset mode
      st.restart e command args vols ports name dir hcall h

/-- A process that ran twice for 60 seconds and cannot be started a third
time: the loop ends with the handle of the second run, the counter at 0 and
the stop flag unset. -/
theorem runArangod_start_error_witness :
    runArangod exampleFailingAttempts (0 + 1) ⟨2, 0, false, some ⟨1⟩, [1, 0]⟩ =
      (⟨2, 0, false, some ⟨1⟩, [2, 1, 0]⟩, some .startError) ∧
    runArangod exampleFailingAttempts 10 (LoopState.init false none) =
      (⟨2, 0, false, some ⟨1⟩, [2, 1, 0]⟩, some .startError) ∧
    (startArangod exampleEnv exampleService 15 "localhost" exampleFailingReplies exampleFS
      1 "agent" 2).ret = .ok (.error "cannot start") :=
  ⟨(runArangod_start_error exampleFailingAttempts 0 ⟨2, 0, false, some ⟨1⟩, [1, 0]⟩
      "cannot start" rfl).1,
    by decide,
    ((runArangod_start_error exampleFailingAttempts 0 ⟨2, 0, false, some ⟨1⟩, [1, 0]⟩
      "cannot start" rfl).2 exampleEnv exampleService 15 "localhost" exampleFailingReplies
      exampleFS 1 "agent").1 rfl⟩

/-! ## IsSameEndpoint as an equivalence -/

/-- The leader-count error is never the leader-disagreement error. -/
theorem errLeaderCount_ne_errLeaderMismatch (n : Nat) :
    errLeaderCount n ≠ errLeaderMismatch := by
  intro h
  have hd := congrArg String.data h
  simp only [errLeaderCount, errLeaderMismatch, String.data_append] at hd
  have hhead := congrArg List.head? hd
  simp at hhead

/-- A chain of same endpoints is a list in which every two endpoints are the
same endpoint. -/
theorem chain'_isSameEndpoint_iff (hostnameOf : HostnameOf) (l : List String) :
    List.Chain' (fun x y => IsSameEndpoint hostnameOf x y = true) l ↔
      ∀ a ∈ l, ∀ b ∈ l, IsSameEndpoint hostnameOf a b = true := by
  cases l with
  | nil => simp
  | cons c l =>
    rw [List.Chain', chain_isSameEndpoint_iff]
    constructor
    · intro hall a ha b hb
      have hca : IsSameEndpoint hostnameOf c a = true := by
        rcases List.mem_cons.mp ha with rfl | ha
        · exact isSameEndpoint_refl hostnameOf _
        · exact hall a ha
      have hcb : IsSameEndpoint hostnameOf c b = true := by
        rcases List.mem_cons.mp hb with rfl | hb
        · exact isSameEndpoint_refl hostnameOf _
        · exact hall b hb
      exact isSameEndpoint_trans hostnameOf (isSameEndpoint_symm hostnameOf hca) hcb
    · intro hall b hb
      exact hall c (List.mem_cons_self _ _) b (List.mem_cons_of_mem _ hb)

/-- The loop from an index `i > 0` on members that all respond: the
disagreement error unless the leader endpoints form a chain, and then the
verdict of the leader count. -/
theorem checkLoop_some_all_responding (hostnameOf : HostnameOf)
    (l : List (Connection × agentStatus)) (p : agentStatus) (n : Nat)
    (hresp : ∀ x ∈ l, x.2.IsResponding = true) :
    checkLoop hostnameOf l (some p) n =
      if List.Chain (fun x y => IsSameEndpoint hostnameOf x y = true) p.LeaderEndpoint
          (l.map fun x => x.2.LeaderEndpoint)
      then
        (if n + (l.filter fun x => x.2.IsLeader).length ≠ 1
         then some (errLeaderCount (n + (l.filter fun x => x.2.IsLeader).length)) else none)
      else some errLeaderMismatch := by
  induction l generalizing p n with
  | nil => simp [checkLoop]
  | cons x l ih =>
    obtain ⟨c, st⟩ := x
    have hr : st.IsResponding = true := hresp (c, st) (List.mem_cons_self _ _)
    have hresp2 : ∀ x ∈ l, x.2.IsResponding = true :=
      fun x hx => hresp x (List.mem_cons_of_mem _ hx)
    unfold checkLoop
    cases hsame : IsSameEndpoint hostnameOf p.LeaderEndpoint st.LeaderEndpoint with
    | false => simp [hr, hsame, List.chain_cons]
    | true =>
      cases hl : st.IsLeader with
      | false => simp [hr, hsame, hl, List.chain_cons, ih _ _ hresp2, List.filter_cons]
      | true =>
        simp [hr, hsame, hl, List.chain_cons, ih _ _ hresp2, List.filter_cons,
          Nat.add_assoc, Nat.add_comm 1]

/-- The whole loop on members that all respond. -/
theorem checkLoop_none_all_responding (hostnameOf : HostnameOf)
    (l : List (Connection × agentStatus))
    (hresp : ∀ x ∈ l, x.2.IsResponding = true) :
    checkLoop hostnameOf l none 0 =
      if List.Chain' (fun x y => IsSameEndpoint hostnameOf x y = true)
          (l.map fun x => x.2.LeaderEndpoint)
      then
        (if (l.filter fun x => x.2.IsLeader).length ≠ 1
         then some (errLeaderCount (l.filter fun x => x.2.IsLeader).length) else none)
      else some errLeaderMismatch := by
  cases l with
  | nil => simp [checkLoop]
  | cons x l =>
    obtain ⟨c, st⟩ := x
    have hr : st.IsResponding = true := hresp (c, st) (List.mem_cons_self _ _)
    have hresp2 : ∀ x ∈ l, x.2.IsResponding = true :=
      fun x hx => hresp x (List.mem_cons_of_mem _ hx)
    unfold checkLoop
    cases hl : st.IsLeader with
    | false =>
      simp [hr, hl, List.Chain', checkLoop_some_all_responding hostnameOf l _ _ hresp2,
        List.filter_cons]
    | true =>
      have hf : (List.filter (fun x => x.2.IsLeader) ((c, st) :: l)).length =
          1 + (List.filter (fun x => x.2.IsLeader) l).length := by
        simp [List.filter_cons, hl, Nat.add_comm]
      rw [hf]
      simp [hr, hl, List.Chain', checkLoop_some_all_responding hostnameOf l _ _ hresp2,
        Nat.add_comm 1]

/-- C18: `IsSameEndpoint` is reflexive, symmetric and transitive; for members
that all respond, the loop of `AreAgentsHealthy` returns the
leader-disagreement error exactly when some two reported leader endpoints of
the list are not the same endpoint; and whether the check succeeds does not
depend on the order of the members (which error is returned may). -/
theorem IsSameEndpoint_equivalence (hostnameOf : HostnameOf) :
    (∀ a, IsSameEndpoint hostnameOf a a = true) ∧
    (∀ a b, IsSameEndpoint hostnameOf a b = true → IsSameEndpoint hostnameOf b a = true) ∧
    (∀ a b c, IsSameEndpoint hostnameOf a b = true → IsSameEndpoint hostnameOf b c = true →
      IsSameEndpoint hostnameOf a c = true) ∧
    (∀ (clients : List Connection) (statuses : List agentStatus),
      clients.length = statuses.length →
      (∀ s ∈ statuses, s.IsResponding = true) →
      (checkResults hostnameOf clients statuses ≠ some errLeaderMismatch ↔
        ∀ s ∈ statuses, ∀ t ∈ statuses,
          IsSameEndpoint hostnameOf s.LeaderEndpoint t.LeaderEndpoint = true)) ∧
    (∀ (clients clients2 : List Connection) (statuses statuses2 : List agentStatus),
      (clients.zip statuses).Perm (clients2.zip statuses2) →
      (checkResults hostnameOf clients statuses = none ↔
        checkResults hostnameOf clients2 statuses2 = none)) := by
  refine ⟨isSameEndpoint_refl hostnameOf, fun a b => isSameEndpoint_symm hostnameOf,
    fun a b c => isSameEndpoint_trans hostnameOf, ?_, ?_⟩
  · intro clients statuses hlen hresp
    have hmap := map_snd_zip_of_length_eq clients statuses hlen
    have hresp2 : ∀ x ∈ clients.zip statuses, x.2.IsResponding = true := by
      intro x hx
      apply hresp
      rw [← hmap]
      exact List.mem_map_of_mem Prod.snd hx
    have hle : ((clients.zip statuses).map fun x => x.2.LeaderEndpoint) =
        statuses.map fun s => s.LeaderEndpoint := by
      conv_rhs => rw [← hmap]
      simp
    unfold checkResults
    rw [checkLoop_none_all_responding hostnameOf _ hresp2, hle]
    have hpairs : List.Chain' (fun x y => IsSameEndpoint hostnameOf x y = true)
        (statuses.map fun s => s.LeaderEndpoint) ↔
        ∀ s ∈ statuses, ∀ t ∈ statuses,
          IsSameEndpoint hostnameOf s.LeaderEndpoint t.LeaderEndpoint = true := by
      rw [chain'_isSameEndpoint_iff]
      simp only [List.mem_map]
      constructor
      · intro h s hs t ht
        exact h _ ⟨s, hs, rfl⟩ _ ⟨t, ht, rfl⟩
      · rintro h a ⟨s, hs, rfl⟩ b ⟨t, ht, rfl⟩
        exact h s hs t ht
    rw [← hpairs]
    by_cases hchain : List.Chain' (fun x y => IsSameEndpoint hostnameOf x y = true)
        (statuses.map fun s => s.LeaderEndpoint)
    · rw [if_pos hchain]
      refine ⟨fun _ => hchain, fun _ => ?_⟩
      split_ifs
      · intro h
        exact errLeaderCount_ne_errLeaderMismatch _ (Option.some.inj h)
      · simp
    · rw [if_neg hchain]
      exact ⟨fun h => absurd rfl h, fun h => absurd h hchain⟩
  · intro clients clients2 statuses statuses2 hperm
    unfold checkResults
    rw [checkLoop_none_eq_none_iff, checkLoop_none_eq_none_iff, chain'_isSameEndpoint_iff,
      chain'_isSameEndpoint_iff]
    have hmem : ∀ x, x ∈ clients.zip statuses ↔ x ∈ clients2.zip statuses2 :=
      fun x => hperm.mem_iff
    have hcount : ((clients.zip statuses).filter fun x => x.2.IsLeader).length =
        ((clients2.zip statuses2).filter fun x => x.2.IsLeader).length := by
      rw [← List.countP_eq_length_filter, ← List.countP_eq_length_filter]
      exact hperm.countP_eq _
    have hmemle : ∀ a, a ∈ ((clients.zip statuses).map fun x => x.2.LeaderEndpoint) ↔
        a ∈ ((clients2.zip statuses2).map fun x => x.2.LeaderEndpoint) :=
      fun a => (hperm.map _).mem_iff
    rw [hcount]
    constructor
    · rintro ⟨h1, h2, h3⟩
      exact ⟨fun x hx => h1 x ((hmem x).mpr hx),
        fun a ha b hb => h2 a ((hmemle a).mpr ha) b ((hmemle b).mpr hb), h3⟩
    · rintro ⟨h1, h2, h3⟩
      exact ⟨fun x hx => h1 x ((hmem x).mp hx),
        fun a ha b hb => h2 a ((hmemle a).mp ha) b ((hmemle b).mp hb), h3⟩

/-- The healthy cluster of the spec's example with the leader probed last
instead of first: the check succeeds either way. -/
theorem example_order_of_members :
    checkResults exampleHostnameOf exampleClients exampleHealthy = none ∧
    checkResults exampleHostnameOf exampleClients.reverse exampleHealthyReordered = none ∧
    (exampleClients.zip exampleHealthy).Perm
      (exampleClients.reverse.zip exampleHealthyReordered) := by
  refine ⟨by decide, by decide, ?_⟩
  decide

end ArangoDBStarter
